import Mathlib

/-!
Verification of the assistance-operation orchestration engine of the
VerDatAs tud-assistance-backbone.

The Lean definitions below are a shallow embedding of the Python sources:

* `src/model/core/tutorial_module.py` — the core data model
  (`Assistance`, `AssistanceObject`, `AssistanceContext`, ...);
* `src/assistance/__init__.py` — parameter-list helpers;
* `src/service/db/assistance.py`, `src/service/db/assistance_object.py`,
  `src/service/db/assistance_operation.py` — the persistence gateway,
  modelled as pure functions over an explicit `Store`;
* `src/model/service/assistance.py` — the operation contract, execution
  engine, process registration and the deferred scheduler;
* `src/service/assistance.py` — the dispatcher and the scheduled sweep;
* `src/assistance/reactive_assistance/greeting.py` — the greeting process.

Machine-level conventions: MongoDB documents become entries of explicit
lists inside `Store`; generated UUIDs become counters minted from the
store; wall-clock datetimes become an explicit `now : Int` (seconds);
Python exceptions become an `EngineError` value threaded as
`Except EngineError α × Store`, where an error outcome returns the store
exactly as it was at the moment the exception was raised.
-/

namespace TudAssistanceBackbone

/-- `AssistanceStateStatus` from `src/model/core/tutorial_module.py`. -/
inductive AssistanceStateStatus where
  | initiated
  | inProgress
  | aborted
  | completed
deriving DecidableEq, Repr

/-- The serialized string of an `AssistanceStateStatus` enum member. -/
def AssistanceStateStatus.value : AssistanceStateStatus → String
  | .initiated => "initiated"
  | .inProgress => "in_progress"
  | .aborted => "aborted"
  | .completed => "completed"

/-- The payload of a `state_update` assistance-object parameter: the
`to_dict()` of an `AssistanceState` with `None` entries dropped
(`src/model/service/assistance.py`, `_compute_state_update_assistance_objects`).
A field is present in the dict exactly when the option is `some`. -/
structure StateUpdatePayload where
  status : Option String
  phase : Option Nat
  step : Option String
deriving DecidableEq, Repr

/-- Python values carried by assistance parameters. The generic JSON-like
bag of the source is specialized to the value shapes constructed by the
modelled code paths (messages and URIs are strings, `related_user_ids` is
a list of user ids, `state_update` carries a `StateUpdatePayload`, and
`user_states` maps a user id — possibly `None` — to the last state-update
payload sent to that user). -/
inductive Value where
  | str (s : String)
  | num (n : Int)
  | boolean (b : Bool)
  | noneV
  | strList (elements : List String)
  | stateUpdate (payload : StateUpdatePayload)
  | userStates (entries : List (Option String × StateUpdatePayload))
deriving DecidableEq, Repr

/-- `AssistanceParameter` (`src/model/core/tutorial_module.py`): a key/value
pair.  The definition-side fields (`type`, `required`, `allowed_values`)
are not used by the claims and are omitted. -/
structure AssistanceParameter where
  key : String
  value : Value
deriving DecidableEq, Repr

/-- `AssistanceParameter.create_with_default_parameters`. -/
def AssistanceParameter.createWithDefaultParameters (key : String) (value : Value) :
    AssistanceParameter :=
  { key := key, value := value }

/-- `AssistanceState` (`src/model/core/tutorial_module.py`); every field may
be `None` in the source. -/
structure AssistanceState where
  status : Option AssistanceStateStatus
  phase : Option Nat
  step : Option String
deriving DecidableEq, Repr

/-- `AssistanceState.create_with_default_parameters`. -/
def AssistanceState.createWithDefaultParameters (status : Option AssistanceStateStatus)
    (phase : Option Nat) (step : Option String) : AssistanceState :=
  { status := status, phase := phase, step := step }

/-- `AssistanceObjectType` from `src/model/core/tutorial_module.py`. -/
inductive AssistanceObjectType where
  | assistanceObject
  | assistanceResponseObject
deriving DecidableEq, Repr

/-- `AssistanceObject` (`src/model/core/tutorial_module.py`). `ao_id`,
`a_id`, `timestamp` and `type` are set by the persistence layer and are
absent (`none`) on freshly constructed objects. -/
structure AssistanceObject where
  aId : Option String := none
  assistanceType : Option String := none
  aoId : Option String := none
  userId : Option String := none
  timestamp : Option Int := none
  parameters : List AssistanceParameter := []
  type : Option AssistanceObjectType := none
deriving DecidableEq, Repr

/-- `AssistanceObject.create_with_default_parameters`. -/
def AssistanceObject.createWithDefaultParameters (userId : Option String)
    (parameters : List AssistanceParameter) : AssistanceObject :=
  { userId := userId, parameters := parameters }

/-- Values held by an `AssistanceContext` parameter dict.  Besides plain
strings (`a_id`, `statement_id`) a context may carry the response objects
of an append-response call, Python's `None`, and — for the schedulability
analysis — an instance of an arbitrary class, abstracted to the name of
the module defining its class and whether the value is serializable. -/
inductive CtxValue where
  | str (s : String)
  | assistanceObjects (objects : List AssistanceObject)
  | noneV
  | custom (classModule : String) (serializable : Bool)
deriving DecidableEq, Repr

/-- `parameter_value.__class__.__module__` for a context value: built-in
Python values (str, list, NoneType) live in the module named `builtins`;
an instance of a user-defined class reports its defining module. -/
def CtxValue.classModule : CtxValue → String
  | .custom m _ => m
  | _ => "builtins"

/-- Whether the value (transitively) serializes to a MongoDB document. -/
def CtxValue.serializable : CtxValue → Bool
  | .custom _ ser => ser
  | _ => true

/-- `AssistanceContext` (`src/model/core/tutorial_module.py`): an insertion
ordered parameter dict plus the `context_can_be_persisted` flag (a class
attribute defaulting to `True` in the source). -/
structure AssistanceContext where
  parameterDict : List (String × CtxValue) := []
  contextCanBePersisted : Bool := true
deriving DecidableEq, Repr

/-- All Python exception types raised by the modelled code.  The `error`
package itself is not part of `src/`; the constructors are modelled from
the spec's error taxonomy (§7) and from the import sites
(`error.tutorial_module`, `error.student_module`).  `attributeError`,
`typeError`, `indexError` and `recursionLimit` stand for the built-in
Python exceptions of the same names. -/
inductive EngineError where
  | assistanceParameter (msg : String)
  | assistanceOperation (msg : String)
  | operationCanNotBeScheduled
  | assistanceNotExists
  | completedAssistanceModify
  | studentModelNotExists
  | attributeError
  | typeError
  | indexError
  | recursionLimit
deriving DecidableEq, Repr

/-- `AssistanceContext.get_parameter` with the default
`parameter_required=True`: a missing key raises
`AssistanceParameterException`. -/
def AssistanceContext.getParameter (ctx : AssistanceContext) (parameterKey : String) :
    Except EngineError CtxValue :=
  match ctx.parameterDict.find? (fun p => p.1 == parameterKey) with
  | none => .error (.assistanceParameter ("Required parameter " ++ parameterKey ++ " missing!"))
  | some p => .ok p.2

/-- `AssistanceContext.add_parameter`: re-adding a key raises; a value whose
class module equals the literal string `__builtin__` clears
`context_can_be_persisted` (this comparison is taken verbatim from the
source — under Python 3 the module of a built-in class is spelled
`builtins`, so the condition never fires). -/
def AssistanceContext.addParameter (ctx : AssistanceContext) (parameterKey : String)
    (parameterValue : CtxValue) : Except EngineError AssistanceContext :=
  if (ctx.parameterDict.find? (fun p => p.1 == parameterKey)).isSome then
    .error (.assistanceParameter ("Parameter " ++ parameterKey ++ " already added!"))
  else
    .ok { parameterDict := ctx.parameterDict ++ [(parameterKey, parameterValue)],
          contextCanBePersisted :=
            if parameterValue.classModule == "__builtin__" then false
            else ctx.contextCanBePersisted }

/-- The in-memory `Assistance` model object
(`src/model/core/tutorial_module.py`).  List-valued fields default to `[]`
exactly as `parse_data_list_element` does. -/
structure Assistance where
  aId : Option String := none
  userId : Option String := none
  typeKey : Option String := none
  timestamp : Option Int := none
  assistanceState : Option AssistanceState := none
  parameters : List AssistanceParameter := []
  assistanceObjects : List AssistanceObject := []
  nextOperationKeys : List String := []
deriving DecidableEq, Repr

/-- `Assistance.create_with_default_parameters`. -/
def Assistance.createWithDefaultParameters (userId : Option String)
    (assistanceObjects : List AssistanceObject)
    (nextOperationKeys : List String := []) : Assistance :=
  { userId := userId, assistanceObjects := assistanceObjects,
    nextOperationKeys := nextOperationKeys }

/-- The persisted document of the `assistance` collection: what
`insert_one`/`replace_one` store.  `assistance_objects` holds references
(`ao_id`s) to documents of the `assistanceObjects` collection, mirroring
the `[{"_id": created_ao._id} for ...]` representation of the source. -/
structure AssistanceDoc where
  aId : String
  userId : Option String := none
  typeKey : Option String := none
  timestamp : Option Int := none
  assistanceState : Option AssistanceState := none
  parameters : List AssistanceParameter := []
  assistanceObjectRefs : List String := []
  nextOperationKeys : List String := []
deriving DecidableEq, Repr

/-- A document of the `assistanceOperations` collection: a scheduled
operation invocation (`AssistanceOperation` in
`src/model/core/tutorial_module.py` as stored by
`create_assistance_operation_for_scheduled_invocation`).  `opId` models the
MongoDB `_id`. -/
structure ScheduledOperationDoc where
  opId : Nat
  assistanceTypeKey : Option String := none
  assistanceOperationKey : Option String := none
  aId : Option String := none
  ctxParameterDict : List (String × CtxValue) := []
  timeOfInvocation : Int
deriving DecidableEq, Repr

/-- An xAPI statement, reduced to the fields read by the modelled
operations (`src/model/core/student_module.py`): id, verb id and
`actor.account.name`. -/
structure Statement where
  id : String
  verbId : String
  actorAccountName : Option String := none
deriving DecidableEq, Repr

/-- `StatementVerbId.LOGGED_IN` from `src/model/core/student_module.py`. -/
def statementVerbIdLoggedIn : String := "https://brindlewaye.com/xAPITerms/verbs/loggedin/"

/-- An experience inside a student model; the greeting operation only
counts them, so a single identifying field suffices. -/
structure Experience where
  eId : String
deriving DecidableEq, Repr

/-- A student model (`src/model/core/student_module.py`), reduced to the
fields read by the greeting operation. -/
structure StudentModel where
  userId : String
  experiences : Option (List Experience) := some []
deriving DecidableEq, Repr

/-- The persistence gateway's state: one list per MongoDB collection
touched by the modelled code, plus counters minting the UUIDs /
object ids that the source draws from `uuid.uuid4()` and MongoDB. -/
structure Store where
  assistanceRecords : List AssistanceDoc := []
  assistanceObjectRecords : List AssistanceObject := []
  scheduledOperations : List ScheduledOperationDoc := []
  statements : List Statement := []
  studentModels : List StudentModel := []
  nextAssistanceNum : Nat := 0
  nextObjectNum : Nat := 0
  nextScheduledNum : Nat := 0
deriving DecidableEq, Repr

/-- The `a_id` minted for the `nextAssistanceNum`-th created assistance. -/
def mintAId (n : Nat) : String := "a-" ++ toString n

/-- The `ao_id` minted for the `nextObjectNum`-th created assistance object. -/
def mintAoId (n : Nat) : String := "ao-" ++ toString n

/- ------------------------------------------------------------------ -/
/- Parameter-list helpers from `src/assistance/__init__.py`.           -/
/- ------------------------------------------------------------------ -/

/-- `get_first_assistance_parameter_by_key`: the first parameter with the
given key, raising `AssistanceParameterException` when there is none. -/
def getFirstAssistanceParameterByKey (parameters : List AssistanceParameter)
    (parameterKey : String) : Except EngineError AssistanceParameter :=
  match parameters.find? (fun p => p.key == parameterKey) with
  | some p => .ok p
  | none => .error (.assistanceParameter "")

/-- `replace_or_add_assistance_parameters_by_key`
(`src/assistance/__init__.py`, lines 58–65): with the default
`parameters=None` it returns `[]`; otherwise it removes every parameter
sharing the replacement's key and appends the replacement. -/
def replaceOrAddAssistanceParametersByKey (replacement : AssistanceParameter)
    (parameters : Option (List AssistanceParameter) := none) : List AssistanceParameter :=
  match parameters with
  | none => []
  | some ps =>
    let filteredParameters := ps.filter (fun parameter => parameter.key != replacement.key)
    filteredParameters ++ [replacement]

/- ------------------------------------------------------------------ -/
/- Persistence gateway: `src/service/db/assistance_object.py`,         -/
/- `src/service/db/assistance.py`, `src/service/db/assistance_operation.py`. -/
/- ------------------------------------------------------------------ -/

/-- `create_assistance_objects`: assign each object the owning `a_id`, a
fresh `ao_id` and the current timestamp, insert all documents into the
`assistanceObjects` collection and return the created objects. -/
def createAssistanceObjects (assistanceObjects : List AssistanceObject) (aId : String)
    (now : Int) (s : Store) : List AssistanceObject × Store :=
  let created := assistanceObjects.enum.map (fun iao =>
    { iao.2 with aId := some aId, aoId := some (mintAoId (s.nextObjectNum + iao.1)),
                 timestamp := some now })
  (created,
   { s with assistanceObjectRecords := s.assistanceObjectRecords ++ created,
            nextObjectNum := s.nextObjectNum + assistanceObjects.length })

/-- `__load_assistance_objects` applied to a stored document: resolve the
object references against the `assistanceObjects` collection (in
collection order, as a MongoDB `$in` query returns them) and build the
in-memory `Assistance`. -/
def loadAssistance (s : Store) (doc : AssistanceDoc) : Assistance :=
  { aId := some doc.aId, userId := doc.userId, typeKey := doc.typeKey,
    timestamp := doc.timestamp, assistanceState := doc.assistanceState,
    parameters := doc.parameters,
    assistanceObjects :=
      if doc.assistanceObjectRefs.isEmpty then []
      else s.assistanceObjectRecords.filter (fun ao =>
        match ao.aoId with
        | some i => doc.assistanceObjectRefs.contains i
        | none => false),
    nextOperationKeys := doc.nextOperationKeys }

/-- `read_assistance_by_a_id` (`src/service/db/assistance.py`, lines
75–81): `find_one` on the assistance collection, `None` when absent. -/
def readAssistanceByAId (aId : String) (s : Store) : Option Assistance :=
  (s.assistanceRecords.find? (fun d => d.aId == aId)).map (loadAssistance s)

/-- `read_assistance_by_a_id` invoked with a raw context value: a
non-string filter value matches no document. -/
def readAssistanceByAIdValue (v : CtxValue) (s : Store) : Option Assistance :=
  match v with
  | .str aId => readAssistanceByAId aId s
  | _ => none

/-- `create_assistance`: mint an `a_id` and timestamp, store the produced
objects (if any) as referenced documents, insert the assistance document
and return it with its objects loaded. -/
def createAssistance (assistance : Assistance) (now : Int) (s : Store) :
    Assistance × Store :=
  let aId := mintAId s.nextAssistanceNum
  let s1 := { s with nextAssistanceNum := s.nextAssistanceNum + 1 }
  let createdS2 :=
    if assistance.assistanceObjects.isEmpty then (([] : List AssistanceObject), s1)
    else createAssistanceObjects assistance.assistanceObjects aId now s1
  let doc : AssistanceDoc :=
    { aId := aId, userId := assistance.userId, typeKey := assistance.typeKey,
      timestamp := some now, assistanceState := assistance.assistanceState,
      parameters := assistance.parameters,
      assistanceObjectRefs := createdS2.1.filterMap (fun ao => ao.aoId),
      nextOperationKeys := assistance.nextOperationKeys }
  let s3 := { createdS2.2 with assistanceRecords := createdS2.2.assistanceRecords ++ [doc] }
  (loadAssistance s3 doc, s3)

/-- `replace_one({"a_id": doc.a_id}, doc)`: replace the first document with
the same `a_id`; no match leaves the collection unchanged. -/
def replaceAssistanceDocList : List AssistanceDoc → AssistanceDoc → List AssistanceDoc
  | [], _ => []
  | d :: ds, doc => if d.aId == doc.aId then doc :: ds else d :: replaceAssistanceDocList ds doc

/-- Whether a stored assistance state is terminal in the sense of the
guard of the update functions: `status == COMPLETED or status == ABORTED`. -/
def AssistanceState.isTerminalStatus (st : AssistanceState) : Bool :=
  st.status == some .completed || st.status == some .aborted

/-- `update_assistance_adding_assistance_objects`
(`src/service/db/assistance.py`, lines 192–219): look up the existing
document, reject a missing instance (`AssistanceNotExistsException`) or a
terminal one (`CompletedAssistanceModifyException`), create documents for
the newly supplied objects, and replace the stored document with the
passed assistance (its object list being the existing references plus the
new ones).  Accessing `assistance_state.status` on a document without a
state raises `AttributeError`. -/
def updateAssistanceAddingAssistanceObjects (assistance : Assistance) (now : Int)
    (s : Store) : Except EngineError Assistance × Store :=
  match assistance.aId with
  | none => (.error .assistanceNotExists, s)
  | some aId =>
    match s.assistanceRecords.find? (fun d => d.aId == aId) with
    | none => (.error .assistanceNotExists, s)
    | some existingDoc =>
      match existingDoc.assistanceState with
      | none => (.error .attributeError, s)
      | some st =>
        if st.isTerminalStatus then (.error .completedAssistanceModify, s)
        else
          let refsS1 :=
            if assistance.assistanceObjects.isEmpty then
              (existingDoc.assistanceObjectRefs, s)
            else
              let createdS1 := createAssistanceObjects assistance.assistanceObjects aId now s
              (existingDoc.assistanceObjectRefs ++ createdS1.1.filterMap (fun ao => ao.aoId),
               createdS1.2)
          let doc : AssistanceDoc :=
            { aId := aId, userId := assistance.userId, typeKey := assistance.typeKey,
              timestamp := assistance.timestamp,
              assistanceState := assistance.assistanceState,
              parameters := assistance.parameters,
              assistanceObjectRefs := refsS1.1,
              nextOperationKeys := assistance.nextOperationKeys }
          let s2 := { refsS1.2 with
                      assistanceRecords := replaceAssistanceDocList refsS1.2.assistanceRecords doc }
          (.ok (loadAssistance s2 doc), s2)

/-- `update_assistance_by_a_id_adding_assistance_objects`
(`src/service/db/assistance.py`, lines 222–244): look up the existing
document, reject a missing or terminal instance, append documents created
for the supplied objects to the existing object references, and replace
the stored document (all other fields keep the stored values). -/
def updateAssistanceByAIdAddingAssistanceObjects (aId : String)
    (assistanceObjects : List AssistanceObject) (now : Int) (s : Store) :
    Except EngineError Assistance × Store :=
  match s.assistanceRecords.find? (fun d => d.aId == aId) with
  | none => (.error .assistanceNotExists, s)
  | some existingDoc =>
    match existingDoc.assistanceState with
    | none => (.error .attributeError, s)
    | some st =>
      if st.isTerminalStatus then (.error .completedAssistanceModify, s)
      else
        let createdS1 := createAssistanceObjects assistanceObjects existingDoc.aId now s
        let doc := { existingDoc with
                     assistanceObjectRefs :=
                       existingDoc.assistanceObjectRefs ++ createdS1.1.filterMap (fun ao => ao.aoId) }
        let s2 := { createdS1.2 with
                    assistanceRecords := replaceAssistanceDocList createdS1.2.assistanceRecords doc }
        (.ok (loadAssistance s2 doc), s2)

/-- `update_one(filter={"a_id": a_id}, update={"$set": \x7b"next_operation_keys": []\x7d})`:
clear the field on the first matching document. -/
def setNextOperationKeysEmptyList : List AssistanceDoc → String → List AssistanceDoc
  | [], _ => []
  | d :: ds, aId =>
    if d.aId == aId then { d with nextOperationKeys := [] } :: ds
    else d :: setNextOperationKeysEmptyList ds aId

/-- `update_assistance_by_a_id_reset_next_operation_keys`
(`src/service/db/assistance.py`, lines 247–250). -/
def updateAssistanceByAIdResetNextOperationKeys (aId : String) (s : Store) : Store :=
  { s with assistanceRecords := setNextOperationKeysEmptyList s.assistanceRecords aId }

/-- The same reset invoked with a raw context value (a non-string value
matches no document, so the update is a no-op). -/
def updateAssistanceByAIdResetNextOperationKeysValue (v : CtxValue) (s : Store) : Store :=
  match v with
  | .str aId => updateAssistanceByAIdResetNextOperationKeys aId s
  | _ => s

/-- `create_assistance_operation_for_scheduled_invocation`
(`src/service/db/assistance_operation.py`, lines 35–50): stamp the record
with `time_of_invocation = now + time_to_invocation_in_s` and insert it. -/
def createAssistanceOperationForScheduledInvocation (assistanceTypeKey : String)
    (assistanceOperationKey : String) (ctx : AssistanceContext) (aId : Option String)
    (timeToInvocationInS : Int) (now : Int) (s : Store) :
    ScheduledOperationDoc × Store :=
  let doc : ScheduledOperationDoc :=
    { opId := s.nextScheduledNum, assistanceTypeKey := some assistanceTypeKey,
      assistanceOperationKey := some assistanceOperationKey, aId := aId,
      ctxParameterDict := ctx.parameterDict,
      timeOfInvocation := now + timeToInvocationInS }
  (doc, { s with scheduledOperations := s.scheduledOperations ++ [doc],
                 nextScheduledNum := s.nextScheduledNum + 1 })

/-- `delete_one({"_id": ...})`: remove the first document with this id. -/
def deleteFirstScheduledById : List ScheduledOperationDoc → Nat → List ScheduledOperationDoc
  | [], _ => []
  | d :: ds, opId => if d.opId == opId then ds else d :: deleteFirstScheduledById ds opId

/-- `delete_assistance_operation` (`src/service/db/assistance_operation.py`). -/
def deleteAssistanceOperation (assistanceOperation : ScheduledOperationDoc) (s : Store) :
    Store :=
  { s with scheduledOperations :=
      deleteFirstScheduledById s.scheduledOperations assistanceOperation.opId }

/-- `delete_assistance_operations_by_a_id`: `delete_many({"a_id": a_id})`. -/
def deleteAssistanceOperationsByAId (aId : String) (s : Store) : Store :=
  { s with scheduledOperations :=
      s.scheduledOperations.filter (fun d => !(d.aId == some aId)) }

/-- The deletion invoked with a raw context value (a non-string filter
value matches no document). -/
def deleteAssistanceOperationsByAIdValue (v : CtxValue) (s : Store) : Store :=
  match v with
  | .str aId => deleteAssistanceOperationsByAId aId s
  | _ => s

/-- `read_assistance_operation_by_time_of_invocation_before_date`:
all scheduled records with `time_of_invocation <= date`. -/
def readAssistanceOperationByTimeOfInvocationBeforeDate (date : Int) (s : Store) :
    List ScheduledOperationDoc :=
  s.scheduledOperations.filter (fun d => d.timeOfInvocation ≤ date)

/-- `read_statement_by_id` (`src/service/db/statement.py`). -/
def readStatementById (statementId : String) (s : Store) : Option Statement :=
  s.statements.find? (fun st => st.id == statementId)

/-- `read_statement_by_id` applied to a raw context value. -/
def readStatementByIdValue (v : CtxValue) (s : Store) : Option Statement :=
  match v with
  | .str statementId => readStatementById statementId s
  | _ => none

/-- `read_student_model_by_user_id` (`src/service/db/student_model.py`). -/
def readStudentModelByUserId (userId : String) (s : Store) : Option StudentModel :=
  s.studentModels.find? (fun sm => sm.userId == userId)

/- ------------------------------------------------------------------ -/
/- Operation contract and execution engine                             -/
/- (`src/model/service/assistance.py`).                                -/
/- ------------------------------------------------------------------ -/

/-- `ASSISTANCE_CONTEXT_PARAMETER_KEY_A_ID`. -/
def assistanceContextParameterKeyAId : String := "a_id"

/-- `ASSISTANCE_CONTEXT_PARAMETER_KEY_ASSISTANCE_OBJECTS`. -/
def assistanceContextParameterKeyAssistanceObjects : String := "assistance_objects"

/-- `ASSISTANCE_CONTEXT_PARAMETER_KEY_STATEMENT_ID`. -/
def assistanceContextParameterKeyStatementId : String := "statement_id"

/-- `ASSISTANCE_OPERATION_KEY_INITIATION`. -/
def assistanceOperationKeyInitiation : String := "initiation"

/-- `ASSISTANCE_OBJECT_PARAMETER_KEY_MESSAGE`. -/
def assistanceObjectParameterKeyMessage : String := "message"

/-- `ASSISTANCE_OBJECT_PARAMETER_KEY_URI`. -/
def assistanceObjectParameterKeyUri : String := "uri"

/-- `ASSISTANCE_OBJECT_PARAMETER_KEY_STATE_UPDATE`. -/
def assistanceObjectParameterKeyStateUpdate : String := "state_update"

/-- `ASSISTANCE_PARAMETER_KEY_RELATED_USER_IDS`. -/
def assistanceParameterKeyRelatedUserIds : String := "related_user_ids"

/-- `ASSISTANCE_PARAMETER_KEY_USER_ID_TO_STATE`. -/
def assistanceParameterKeyUserIdToState : String := "user_states"

/-- `SubsequentAssistanceOperationType` from
`src/model/service/assistance.py`. -/
inductive SubsequentAssistanceOperationType where
  | triggeredOperation
  | scheduledOperation
deriving DecidableEq, Repr

/-- `SubsequentAssistanceOperation`: a declared follow-up. -/
structure SubsequentAssistanceOperation where
  type : SubsequentAssistanceOperationType
  operationKey : String
  timeToInvocationInS : Option Int := none
deriving DecidableEq, Repr

/-- `AssistanceRequest` (`src/model/service/assistance.py`). -/
structure AssistanceRequest where
  assistanceTypeKey : String
  assistanceOperationKey : String
  ctx : AssistanceContext
deriving DecidableEq, Repr

/-- `AssistanceResult`: the constructor replaces `None` lists by `[]`, so
the list fields are total here. -/
structure AssistanceResult where
  assistance : List Assistance
  assistanceRequests : List AssistanceRequest := []
  prependAssistanceFromRequests : Bool := false
deriving DecidableEq, Repr

/-- The mutable instance fields of `AssistanceOperation`
(`src/model/service/assistance.py`, `__init__`), with the constructor's
defaults.  Python operations mutate these fields during `_execute`; the
embedding threads the record explicitly. -/
structure OperationState where
  targetStatus : Option AssistanceStateStatus := none
  parameters : List AssistanceParameter := []
  subsequentOperations : Option (List SubsequentAssistanceOperation) := none
  assistanceInProgressRequired : Bool := false
  deleteScheduledOperations : Bool := false
  resetNextOperationKeys : Bool := false
  preventProgress : Bool := false
  relatedUserIds : Option (List String) := none
  phase : Option Nat := none
  step : Option String := none
  stateUpdateStatusToSend : Option (List AssistanceStateStatus) := none
  sendStateUpdateToRelatedUsers : Bool := true
deriving DecidableEq, Repr

/-- Runtime configuration read through `service.administration`: the debug
flag and the settings consulted by the scheduler, plus the disabled
assistance type keys from `service.environment`. -/
structure Config where
  debugMode : Bool := false
  debugScheduledAssistanceTimeFactor : Option Int := none
  scheduledAssistanceDisabled : Option Bool := none
  disabledAssistanceTypeKeys : List String := []
deriving DecidableEq, Repr

/-- A concrete operation: its constructed state plus its (possibly
overridden) `is_applicable` and `_execute` methods.  `_execute` may mutate
the operation instance, hence returns the updated `OperationState`; the
modelled operations only read the store in `_execute`. -/
structure OperationImpl where
  init : OperationState
  isApplicableFn : OperationState → AssistanceContext → Store → Except EngineError Bool
  executeFn : OperationState → AssistanceContext → Store →
    Except EngineError (OperationState × Option AssistanceResult)

/-- A registered `AssistanceProcess`: its key, its registered operations
(insertion-ordered dict) and the operation-key → phase-number index. -/
structure AssistanceProcessModel where
  key : String
  registeredOperations : List (String × OperationImpl)
  operationKeysToPhaseNumber : List (String × Nat) := []

/-- `AssistanceProcess.__is_operation_registered`. -/
def isOperationRegistered (proc : AssistanceProcessModel) (operationKey : String) : Bool :=
  (proc.registeredOperations.find? (fun p => p.1 == operationKey)).isSome

/-- `AssistanceOperation.is_applicable` (`src/model/service/assistance.py`,
lines 159–169), the base-class default: with no in-progress requirement it
is `True`; otherwise it reads the `a_id` context parameter and calls
`read_assistance_by_a_id`, returning `False` only when
`AssistanceParameterException` was raised (i.e. the parameter is absent).
The read's result is discarded: a missing instance yields `None` and
raises nothing. -/
def defaultIsApplicable (op : OperationState) (ctx : AssistanceContext) (s : Store) :
    Except EngineError Bool :=
  if !op.assistanceInProgressRequired then .ok true
  else
    match ctx.getParameter assistanceContextParameterKeyAId with
    | .error _ => .ok false
    | .ok v =>
      let _ := readAssistanceByAIdValue v s
      .ok true

/-- The base-class `_execute`, which returns `None`. -/
def defaultExecuteFn (op : OperationState) (_ : AssistanceContext) (_ : Store) :
    Except EngineError (OperationState × Option AssistanceResult) :=
  .ok (op, none)

/-- `AssistanceOperation._filter_subsequent_operations_by_type`. -/
def filterSubsequentOperationsByType
    (subsequentOperations : Option (List SubsequentAssistanceOperation))
    (type : SubsequentAssistanceOperationType) : List SubsequentAssistanceOperation :=
  match subsequentOperations with
  | none => []
  | some ops => ops.filter (fun o => o.type == type)

/-- `AssistanceProcess.schedule_operation` (`src/model/service/assistance.py`,
lines 544–568): reject an unregistered key, reject a context that cannot
be persisted (`AssistanceOperationCanNotBeScheduledException`), then write
one scheduled-operation record due at
`now + time_to_invocation_in_s * debug_scheduled_assistance_time_factor`
where the factor is the stored debug setting in debug mode and 1
otherwise. -/
def scheduleOperation (proc : AssistanceProcessModel) (operationKey : String)
    (ctx : AssistanceContext) (timeToInvocationInS : Int) (aId : Option String)
    (cfg : Config) (now : Int) (s : Store) : Except EngineError Unit × Store :=
  if !isOperationRegistered proc operationKey then
    (.error (.assistanceOperation ("Operation " ++ operationKey ++ " not registered!")), s)
  else if !ctx.contextCanBePersisted then
    (.error .operationCanNotBeScheduled, s)
  else
    let debugScheduledAssistanceTimeFactor : Int :=
      if cfg.debugMode then
        match cfg.debugScheduledAssistanceTimeFactor with
        | some f => f
        | none => 1
      else 1
    let docS := createAssistanceOperationForScheduledInvocation proc.key operationKey ctx
      aId (timeToInvocationInS * debugScheduledAssistanceTimeFactor) now s
    (.ok (), docS.2)

/-- `self.target_status if ... and self.target_status != status else status
if ... else AssistanceStateStatus.INITIATED` — the status part of the
state-update synthesis in `_process_assistance_result`. -/
def stateStatusUpdateOf (targetStatus : AssistanceStateStatus) (assistance : Assistance) :
    AssistanceStateStatus :=
  match assistance.assistanceState with
  | some st =>
    match st.status with
    | some status => if targetStatus != status then targetStatus else status
    | none => .initiated
  | none => .initiated

/-- The phase part of the state-update synthesis (default `1`). -/
def statePhaseUpdateOf (phase : Nat) (assistance : Assistance) : Nat :=
  match assistance.assistanceState with
  | some st =>
    match st.phase with
    | some p => if phase != p then phase else p
    | none => 1
  | none => 1

/-- The step part of the state-update synthesis (default
`ASSISTANCE_OPERATION_KEY_INITIATION`). -/
def stateStepUpdateOf (step : String) (assistance : Assistance) : String :=
  match assistance.assistanceState with
  | some st =>
    match st.step with
    | some stp => if step != stp then step else stp
    | none => assistanceOperationKeyInitiation
  | none => assistanceOperationKeyInitiation

/-- The `related_user_ids` parameter value, when it has the expected
list-of-user-ids shape. -/
def Value.asRelatedUserIds : Value → Option (List (Option String))
  | .strList l => some (l.map some)
  | _ => none

/-- `AssistanceOperation._compute_state_update_assistance_objects`
(`src/model/service/assistance.py`, lines 365–410): skip entirely when a
send-filter is set and excludes the status update; otherwise emit one
`state_update` object per affected user (explicit override list, else the
instance's `related_user_ids` parameter, else the sole owner). -/
def computeStateUpdateAssistanceObjects (op : OperationState) (assistance : Assistance)
    (statusUpdate : AssistanceStateStatus) (phaseUpdate : Option Nat)
    (stepUpdate : Option String) : List AssistanceObject :=
  let skip :=
    match op.stateUpdateStatusToSend with
    | some l => !l.contains statusUpdate
    | none => false
  if skip then []
  else
    let idsOfUsersToUpdate : List (Option String) :=
      if op.sendStateUpdateToRelatedUsers then
        match op.relatedUserIds with
        | some rs => rs.map some
        | none =>
          if !assistance.parameters.isEmpty then
            match (assistance.parameters.find?
                (fun p => p.key == assistanceParameterKeyRelatedUserIds)).bind
                (fun p => p.value.asRelatedUserIds) with
            | some rs => rs
            | none => [assistance.userId]
          else [assistance.userId]
      else [assistance.userId]
    idsOfUsersToUpdate.map (fun idOfUserToUpdate =>
      AssistanceObject.createWithDefaultParameters idOfUserToUpdate
        [AssistanceParameter.createWithDefaultParameters assistanceObjectParameterKeyStateUpdate
          (.stateUpdate { status := some statusUpdate.value, phase := phaseUpdate,
                          step := stepUpdate })])

/-- The `user_states` parameter value as a list of entries (empty for any
other value shape; the engine only ever stores `userStates` values under
this key). -/
def Value.asUserStatesEntries : Value → List (Option String × StateUpdatePayload)
  | .userStates entries => entries
  | _ => []

/-- Python dict assignment `user_states[user_id] = payload`: replace in
place when the key exists, append otherwise. -/
def userStatesSet (entries : List (Option String × StateUpdatePayload))
    (key : Option String) (payload : StateUpdatePayload) :
    List (Option String × StateUpdatePayload) :=
  if (entries.find? (fun e => e.1 == key)).isSome then
    entries.map (fun e => if e.1 == key then (key, payload) else e)
  else entries ++ [(key, payload)]

/-- The `state_update` parameter payload of a synthesized object
(`get_first_assistance_parameter_by_key(o.parameters, STATE_UPDATE).value`;
the fallbacks are unreachable for objects built by
`computeStateUpdateAssistanceObjects`). -/
def AssistanceObject.stateUpdatePayloadOf (o : AssistanceObject) : StateUpdatePayload :=
  match getFirstAssistanceParameterByKey o.parameters assistanceObjectParameterKeyStateUpdate with
  | .ok p =>
    match p.value with
    | .stateUpdate payload => payload
    | _ => { status := none, phase := none, step := none }
  | .error _ => { status := none, phase := none, step := none }

/-- The raw context value for an `a_id` taken from a model object: the
string itself, or Python's `None` when the id is absent. -/
def ctxValueOfAId : Option String → CtxValue
  | some a => .str a
  | none => .noneV

/-- The schedule loop at the end of `_process_assistance_result`: one
`schedule_operation` call per SCHEDULED follow-up, with a fresh context
holding only the persisted instance's `a_id`.  A follow-up without a
declared delay would make Python multiply `None` by the time factor
(`TypeError`). -/
def scheduleSubsequentOperations (proc : AssistanceProcessModel) (cfg : Config) (now : Int)
    (persistedAId : Option String) :
    List SubsequentAssistanceOperation → Store → Except EngineError Unit × Store
  | [], s => (.ok (), s)
  | so :: rest, s =>
    match so.timeToInvocationInS with
    | none => (.error .typeError, s)
    | some d =>
      let ctx : AssistanceContext :=
        { parameterDict := [(assistanceContextParameterKeyAId, ctxValueOfAId persistedAId)] }
      match scheduleOperation proc so.operationKey ctx d persistedAId cfg now s with
      | (.error e, s1) => (.error e, s1)
      | (.ok _, s1) => scheduleSubsequentOperations proc cfg now persistedAId rest s1

/-- `previous_assistance.assistance_objects`' `ao_id`s, recorded before
the update so that previously stored objects can be filtered out of the
returned instance. -/
def previousAssistanceObjects (previousAssistance : Assistance) : List (Option String) :=
  previousAssistance.assistanceObjects.map (fun ao => ao.aoId)

/-- The "Determine state update" section of
`AssistanceOperation._process_assistance_result`
(`src/model/service/assistance.py`, lines 231–298): with target status,
phase and step all set, synthesize state-update objects, prepend them and
fold them into the `user_states` bookkeeping parameter; with only a target
status, default the send-filter to terminal statuses and prepend the
synthesized objects; with no target status, change nothing. -/
def determineStateUpdate (op : OperationState) (assistance : Assistance) :
    OperationState × Assistance :=
  match op.targetStatus, op.phase, op.step with
  | some targetStatus, some phaseV, some stepV =>
    let assistanceStateStatusUpdate := stateStatusUpdateOf targetStatus assistance
    let assistanceStatePhaseUpdate := statePhaseUpdateOf phaseV assistance
    let assistanceStateStepUpdate := stateStepUpdateOf stepV assistance
    let statusUpdateAssistanceObjects := computeStateUpdateAssistanceObjects op assistance
      assistanceStateStatusUpdate (some assistanceStatePhaseUpdate)
      (some assistanceStateStepUpdate)
    let assistance := { assistance with
      assistanceObjects := statusUpdateAssistanceObjects ++ assistance.assistanceObjects }
    -- Set user states
    let assistance :=
      if !statusUpdateAssistanceObjects.isEmpty then
        let userStates :=
          match getFirstAssistanceParameterByKey assistance.parameters
              assistanceParameterKeyUserIdToState with
          | .ok p => p.value.asUserStatesEntries
          | .error _ => []
        let userStates := statusUpdateAssistanceObjects.foldl
          (fun us o => userStatesSet us o.userId o.stateUpdatePayloadOf) userStates
        { assistance with parameters :=
            (replaceOrAddAssistanceParametersByKey
              (AssistanceParameter.createWithDefaultParameters
                assistanceParameterKeyUserIdToState (.userStates userStates))
              (some assistance.parameters)) }
      else assistance
    (op, assistance)
  | some targetStatus, _, _ =>
    let assistanceStateStatusUpdate := stateStatusUpdateOf targetStatus assistance
    let op :=
      if op.stateUpdateStatusToSend.isNone then
        { op with stateUpdateStatusToSend := some [.aborted, .completed] }
      else op
    let statusUpdateAssistanceObjects := computeStateUpdateAssistanceObjects op assistance
      assistanceStateStatusUpdate none none
    (op, { assistance with
      assistanceObjects := statusUpdateAssistanceObjects ++ assistance.assistanceObjects })
  | none, _, _ => (op, assistance)

/-- The "Set assistance properties" section of
`_process_assistance_result` (lines 300–309): unless `prevent_progress`,
overwrite the state from the operation's directives and set
`next_operation_keys` to exactly the TRIGGERED follow-up keys. -/
def setAssistanceProperties (op : OperationState)
    (subsequentTriggeredOperations : List SubsequentAssistanceOperation)
    (assistance : Assistance) : Assistance :=
  if !op.preventProgress then
    { assistance with
      assistanceState := some (AssistanceState.createWithDefaultParameters
        op.targetStatus op.phase op.step),
      nextOperationKeys := subsequentTriggeredOperations.map (fun o => o.operationKey) }
  else assistance

/-- The "Set type of new assistance objects" section of
`_process_assistance_result` (lines 310–315). -/
def stampAssistanceObjectTypes (proc : AssistanceProcessModel) (assistance : Assistance) :
    Assistance :=
  { assistance with
    assistanceObjects := assistance.assistanceObjects.map (fun (ao : AssistanceObject) =>
      let ao := { ao with assistanceType := some proc.key }
      if ao.type.isSome then ao else { ao with type := some .assistanceObject }) }

/-- The persistence tail of `_process_assistance_result` (lines 316–355):
create the instance when it has no id, otherwise re-read the previous
record, append only the new objects and filter the previously stored ones
out of the returned instance; afterwards schedule every SCHEDULED
follow-up against the persisted id. -/
def persistAssistanceAndScheduleFollowUps (proc : AssistanceProcessModel) (cfg : Config)
    (now : Int) (subsequentScheduledOperations : List SubsequentAssistanceOperation)
    (assistance : Assistance) (s : Store) : Except EngineError Assistance × Store :=
  match assistance.aId with
  | none =>
    -- Create new assistance
    let assistance := { assistance with typeKey := some proc.key }
    let persistedS1 := createAssistance assistance now s
    match scheduleSubsequentOperations proc cfg now persistedS1.1.aId
        subsequentScheduledOperations persistedS1.2 with
    | (.error e, s2) => (.error e, s2)
    | (.ok _, s2) => (.ok persistedS1.1, s2)
  | some aId =>
    -- or update existing assistance
    match readAssistanceByAId aId s with
    | none => (.error .attributeError, s)
    | some previousAssistance =>
      let previousAssistanceObjectAoIds :=
        previousAssistanceObjects previousAssistance
      match updateAssistanceAddingAssistanceObjects assistance now s with
      | (.error e, s1) => (.error e, s1)
      | (.ok persisted, s1) =>
        let persisted := { persisted with
          assistanceObjects :=
            persisted.assistanceObjects.filter
              (fun ao => !previousAssistanceObjectAoIds.contains ao.aoId) }
        match scheduleSubsequentOperations proc cfg now persisted.aId
            subsequentScheduledOperations s1 with
        | (.error e, s2) => (.error e, s2)
        | (.ok _, s2) => (.ok persisted, s2)

/-- The body of `AssistanceOperation._process_assistance_result`
(`src/model/service/assistance.py`, lines 218–355) after the assistance to
process has been resolved, as the composition of its commented sections. -/
def processAssistanceResultCore (proc : AssistanceProcessModel) (op : OperationState)
    (subsequentScheduledOperations subsequentTriggeredOperations :
      List SubsequentAssistanceOperation)
    (cfg : Config) (now : Int) (assistance : Assistance) (s : Store) :
    Except EngineError (Option Assistance) × Store :=
  let opAssistance := determineStateUpdate op assistance
  let assistance := setAssistanceProperties opAssistance.1 subsequentTriggeredOperations
    opAssistance.2
  let assistance := stampAssistanceObjectTypes proc assistance
  match persistAssistanceAndScheduleFollowUps proc cfg now subsequentScheduledOperations
      assistance s with
  | (.error e, s1) => (.error e, s1)
  | (.ok persisted, s1) => (.ok (some persisted), s1)

/-- `AssistanceOperation._process_assistance_result`, entry part: with no
assistance to process, an operation with an in-progress requirement loads
the existing instance and clears its produced-objects list (loading `None`
raises `AttributeError`); without the requirement the call is a no-op
returning `None`. -/
def processAssistanceResult (proc : AssistanceProcessModel) (op : OperationState)
    (assistanceToProcess : Option Assistance) (ctx : AssistanceContext)
    (subsequentScheduledOperations subsequentTriggeredOperations :
      List SubsequentAssistanceOperation)
    (cfg : Config) (now : Int) (s : Store) : Except EngineError (Option Assistance) × Store :=
  match assistanceToProcess with
  | none =>
    if op.assistanceInProgressRequired then
      match ctx.getParameter assistanceContextParameterKeyAId with
      | .error e => (.error e, s)
      | .ok v =>
        match readAssistanceByAIdValue v s with
        | none => (.error .attributeError, s)
        | some a =>
          processAssistanceResultCore proc op subsequentScheduledOperations
            subsequentTriggeredOperations cfg now { a with assistanceObjects := [] } s
    else (.ok none, s)
  | some a =>
    processAssistanceResultCore proc op subsequentScheduledOperations
      subsequentTriggeredOperations cfg now a s

/-- The loop in `AssistanceOperation.execute` that processes each
assistance of the result, skipping `None` outcomes. -/
def processAssistanceResultList (proc : AssistanceProcessModel) (op : OperationState)
    (ctx : AssistanceContext)
    (subsequentScheduledOperations subsequentTriggeredOperations :
      List SubsequentAssistanceOperation)
    (cfg : Config) (now : Int) :
    List Assistance → Store → Except EngineError (List Assistance) × Store
  | [], s => (.ok [], s)
  | a :: rest, s =>
    match processAssistanceResult proc op (some a) ctx subsequentScheduledOperations
        subsequentTriggeredOperations cfg now s with
    | (.error e, s1) => (.error e, s1)
    | (.ok none, s1) =>
      processAssistanceResultList proc op ctx subsequentScheduledOperations
        subsequentTriggeredOperations cfg now rest s1
    | (.ok (some p), s1) =>
      match processAssistanceResultList proc op ctx subsequentScheduledOperations
          subsequentTriggeredOperations cfg now rest s1 with
      | (.error e, s2) => (.error e, s2)
      | (.ok ps, s2) => (.ok (p :: ps), s2)

/-- The reset/delete bookkeeping at the start of
`AssistanceOperation.execute` (lines 186–194): clear stale
`next_operation_keys` when required and not prevented, then bulk-delete
pending scheduled operations when requested and not prevented.  An error
is the `AssistanceParameterException` of a missing `a_id`, raised with the
store as it stood at that point. -/
def resetAndDeleteBookkeeping (op : OperationState) (ctx : AssistanceContext) (s : Store) :
    Except EngineError Unit × Store :=
  -- Check if next operation keys have to be reset
  match (if op.assistanceInProgressRequired && op.resetNextOperationKeys &&
      !op.preventProgress then
      match ctx.getParameter assistanceContextParameterKeyAId with
      | .error e => .error e
      | .ok v => .ok (updateAssistanceByAIdResetNextOperationKeysValue v s)
    else .ok s : Except EngineError Store) with
  | .error e => (.error e, s)
  | .ok s1 =>
    match (if op.assistanceInProgressRequired && op.deleteScheduledOperations &&
        !op.preventProgress then
        match ctx.getParameter assistanceContextParameterKeyAId with
        | .error e => .error e
        | .ok v => .ok (deleteAssistanceOperationsByAIdValue v s1)
      else .ok s1 : Except EngineError Store) with
    | .error e => (.error e, s1)
    | .ok s2 => (.ok (), s2)

/-- The opening of `AssistanceOperation.execute`
(`src/model/service/assistance.py`, lines 176–181): record phase/step on
a copy of the operation's initial state and force the reset flag when
follow-ups are declared. -/
def preparedOperationState (init : OperationState) (phase : Option Nat)
    (step : Option String) : OperationState :=
  { init with
    phase := phase, step := step,
    resetNextOperationKeys := init.resetNextOperationKeys || init.subsequentOperations.isSome }

/-- `AssistanceOperation.execute` (`src/model/service/assistance.py`, lines
171–216): prepare the operation state, run `_execute`, split the
follow-ups into TRIGGERED and SCHEDULED queues (both empty under
`prevent_progress`), perform the reset/delete bookkeeping, then process
every produced assistance (or a `None` placeholder) and return the
result with the persisted instances. -/
def executeOperation (proc : AssistanceProcessModel) (impl : OperationImpl)
    (ctx : AssistanceContext) (phase : Option Nat) (step : Option String)
    (cfg : Config) (now : Int) (s : Store) :
    Except EngineError (Option AssistanceResult) × Store :=
  let op := preparedOperationState impl.init phase step
  match impl.executeFn op ctx s with
  | .error e => (.error e, s)
  | .ok (op, result) =>
    let subsequentTriggeredOperations :=
      if op.preventProgress then []
      else filterSubsequentOperationsByType op.subsequentOperations .triggeredOperation
    let subsequentScheduledOperations :=
      if op.preventProgress then []
      else filterSubsequentOperationsByType op.subsequentOperations .scheduledOperation
    match resetAndDeleteBookkeeping op ctx s with
    | (.error e, sE) => (.error e, sE)
    | (.ok _, s2) =>
        match result with
        | none =>
          match processAssistanceResult proc op none ctx subsequentScheduledOperations
              subsequentTriggeredOperations cfg now s2 with
          | (.error e, s3) => (.error e, s3)
          | (.ok _, s3) => (.ok none, s3)
        | some result =>
          if result.assistance.isEmpty then
            match processAssistanceResult proc op none ctx subsequentScheduledOperations
                subsequentTriggeredOperations cfg now s2 with
            | (.error e, s3) => (.error e, s3)
            | (.ok _, s3) => (.ok (some { result with assistance := [] }), s3)
          else
            match processAssistanceResultList proc op ctx subsequentScheduledOperations
                subsequentTriggeredOperations cfg now result.assistance s2 with
            | (.error e, s3) => (.error e, s3)
            | (.ok collected, s3) => (.ok (some { result with assistance := collected }), s3)

/-- `AssistanceProcess.check_applicability_and_execute_operation`
(`src/model/service/assistance.py`, lines 522–542): an unregistered key
raises `AssistanceOperationException`; an inapplicable operation is a
silent no-op; otherwise the operation executes with its static phase
number (if any) and its own key as step. -/
def checkApplicabilityAndExecuteOperation (proc : AssistanceProcessModel)
    (operationKey : String) (ctx : AssistanceContext) (cfg : Config) (now : Int)
    (s : Store) : Except EngineError (Option AssistanceResult) × Store :=
  match proc.registeredOperations.find? (fun p => p.1 == operationKey) with
  | none =>
    (.error (.assistanceOperation ("Operation " ++ operationKey ++ " not registered!")), s)
  | some keyImpl =>
    match keyImpl.2.isApplicableFn keyImpl.2.init ctx s with
    | .error e => (.error e, s)
    | .ok false => (.ok none, s)
    | .ok true =>
      executeOperation proc keyImpl.2 ctx
        ((proc.operationKeysToPhaseNumber.find? (fun p => p.1 == operationKey)).map
          (fun p => p.2))
        (some operationKey) cfg now s

/- ------------------------------------------------------------------ -/
/- Process definition / registration                                   -/
/- (`AssistanceProcess._register_phases` and `_register_operation`).   -/
/- ------------------------------------------------------------------ -/

/-- `AssistanceOperationSchedule`: the declared delay to a step. -/
structure AssistanceOperationScheduleSpec where
  timeToInvocationInS : Int
deriving DecidableEq, Repr

/-- `AssistancePhaseStep`: one step of a phase definition, binding an
operation key to an operation and an optional schedule. -/
structure AssistancePhaseStepSpec where
  operationKey : String
  parameters : List AssistanceParameter := []
  operation : OperationState
  schedule : Option AssistanceOperationScheduleSpec := none
deriving DecidableEq, Repr

/-- `AssistancePhase`: an ordered list of steps. -/
structure AssistancePhaseSpec where
  parameters : List AssistanceParameter := []
  steps : List AssistancePhaseStepSpec
deriving DecidableEq, Repr

/-- The three dictionaries `_register_phases` accumulates:
`operations_to_register`,
`keys_of_operations_to_register_to_phase_number` and
`keys_of_operations_to_register_to_step_number` (insertion-ordered). -/
structure RegistrationState where
  operationsToRegister : List (String × OperationState) := []
  phaseNumbers : List (String × Nat) := []
  stepNumbers : List (String × Nat) := []
deriving DecidableEq, Repr

/-- The `SubsequentAssistanceOperation` injected for a given next step:
TRIGGERED when the next step declares no schedule, SCHEDULED with its
delay otherwise. -/
def subsequentOperationForNextStep (nextStep : AssistancePhaseStepSpec) :
    SubsequentAssistanceOperation :=
  match nextStep.schedule with
  | none =>
    { type := .triggeredOperation, operationKey := nextStep.operationKey }
  | some sch =>
    { type := .scheduledOperation, operationKey := nextStep.operationKey,
      timeToInvocationInS := some sch.timeToInvocationInS }

/-- The successor step of step `stepIndex` of phase `phaseIndex`: the
next step of the phase, else the first step of the next phase (`None`
standing for Python's `IndexError` on `phases[phase_index + 1].steps[0]`
when that phase is empty). -/
def nextStepOf (phases : List AssistancePhaseSpec) (phase : AssistancePhaseSpec)
    (phaseIndex stepIndex : Nat) : Option AssistancePhaseStepSpec :=
  if stepIndex != phase.steps.length - 1 then phase.steps.get? (stepIndex + 1)
  else (phases.get? (phaseIndex + 1)).bind (fun p => p.steps.get? 0)

/-- The operation `_register_phases` registers for one step: the step's
operation, marked as requiring an in-progress owner unless it is the very
first step, with the follow-up for the next step appended unless it is
the last step of the last phase. -/
def operationToRegisterFor (phases : List AssistancePhaseSpec)
    (phase : AssistancePhaseSpec) (phaseIndex stepIndex : Nat)
    (step : AssistancePhaseStepSpec) : Except EngineError OperationState :=
  let operationToRegister := step.operation
  -- Check if this is the first step of the assistance process
  let operationToRegister :=
    if phaseIndex != 0 || stepIndex != 0 then
      { operationToRegister with assistanceInProgressRequired := true }
    else operationToRegister
  -- Check if this is the last step of the assistance process
  if phaseIndex == phases.length - 1 && stepIndex == phase.steps.length - 1 then
    .ok operationToRegister
  else
    match nextStepOf phases phase phaseIndex stepIndex with
    | none => .error .indexError
    | some nextStep =>
      -- Check if the next step is triggered or scheduled
      .ok { operationToRegister with
        subsequentOperations := some ((operationToRegister.subsequentOperations.getD [])
          ++ [subsequentOperationForNextStep nextStep]) }

/-- The inner loop of `AssistanceProcess._register_phases`
(`src/model/service/assistance.py`, lines 570–628) over the enumerated
steps of one phase: bump the running step number, raise on a duplicate
key, record the phase/step numbers, and register the step's operation as
computed by `operationToRegisterFor`. -/
def registerPhaseStepsLoop (phases : List AssistancePhaseSpec)
    (phase : AssistancePhaseSpec) (phaseIndex : Nat) :
    List (Nat × AssistancePhaseStepSpec) → Nat → RegistrationState →
    Except EngineError (RegistrationState × Nat)
  | [], stepNumber, acc => .ok (acc, stepNumber)
  | (stepIndex, step) :: rest, stepNumber, acc =>
    let stepNumber := stepNumber + 1
    if (acc.operationsToRegister.find? (fun p => p.1 == step.operationKey)).isSome then
      .error (.assistanceOperation
        ("Operation " ++ step.operationKey ++ " already registered!"))
    else
      let acc := { acc with
        phaseNumbers := acc.phaseNumbers ++ [(step.operationKey, phaseIndex + 1)],
        stepNumbers := acc.stepNumbers ++ [(step.operationKey, stepNumber)] }
      match operationToRegisterFor phases phase phaseIndex stepIndex step with
      | .error e => .error e
      | .ok operationToRegister =>
        registerPhaseStepsLoop phases phase phaseIndex rest stepNumber
          { acc with operationsToRegister :=
              acc.operationsToRegister ++ [(step.operationKey, operationToRegister)] }

/-- The outer loop of `_register_phases` over the enumerated phases. -/
def registerPhasesLoop (phases : List AssistancePhaseSpec) :
    List (Nat × AssistancePhaseSpec) → Nat → RegistrationState →
    Except EngineError (RegistrationState × Nat)
  | [], stepNumber, acc => .ok (acc, stepNumber)
  | (phaseIndex, phase) :: rest, stepNumber, acc =>
    match registerPhaseStepsLoop phases phase phaseIndex phase.steps.enum stepNumber acc with
    | .error e => .error e
    | .ok accStep => registerPhasesLoop phases rest accStep.2 accStep.1

/-- `AssistanceProcess._register_phases` on a freshly constructed process
(empty `_registered_operations`, so the final `|=` merge equals the
accumulated dictionary). -/
def registerPhases (phases : List AssistancePhaseSpec) :
    Except EngineError RegistrationState :=
  match registerPhasesLoop phases phases.enum 0 {} with
  | .error e => .error e
  | .ok accStep => .ok accStep.1

/- ------------------------------------------------------------------ -/
/- Dispatcher (`src/service/assistance.py`).                           -/
/- ------------------------------------------------------------------ -/

/-- The chained-request loop inside `__handle_assistance_request`
(`src/service/assistance.py`, lines 377–380): each request is resolved
through the engine at one recursion level lower and its `assistance` list
is appended (`.assistance` on a `None` outcome raises `AttributeError`). -/
def resolveAssistanceRequests
    (handle : AssistanceRequest → Store → Except EngineError (Option AssistanceResult) × Store) :
    List AssistanceRequest → Store → Except EngineError (List Assistance) × Store
  | [], s => (.ok [], s)
  | r :: rs, s =>
    match handle r s with
    | (.error e, s1) => (.error e, s1)
    | (.ok none, s1) => (.error .attributeError, s1)
    | (.ok (some res), s1) =>
      match resolveAssistanceRequests handle rs s1 with
      | (.error e, s2) => (.error e, s2)
      | (.ok rest, s2) => (.ok (res.assistance ++ rest), s2)

/-- `__handle_assistance_request` (`src/service/assistance.py`, lines
353–383): a disabled or unsupported type yields `None`; the named process
runs `check_applicability_and_execute_operation`; with chained requests
present, the chained instances are resolved recursively and emitted before
the originating instances when `prepend_assistance_from_requests` is set,
after them otherwise.  Python's unbounded recursion is modelled with an
explicit fuel (exhaustion standing for `RecursionError`). -/
def handleAssistanceRequest (reg : List AssistanceProcessModel) (supported : List String)
    (cfg : Config) (now : Int) :
    Nat → AssistanceRequest → Store → Except EngineError (Option AssistanceResult) × Store
  | 0, _, s => (.error .recursionLimit, s)
  | fuel + 1, req, s =>
    if cfg.disabledAssistanceTypeKeys.contains req.assistanceTypeKey ||
        !supported.contains req.assistanceTypeKey then
      (.ok none, s)
    else
      match reg.find? (fun p => p.key == req.assistanceTypeKey) with
      | none =>
        (.error (.assistanceOperation
          ("Assistance type " ++ req.assistanceTypeKey ++ " not defined!")), s)
      | some proc =>
        match checkApplicabilityAndExecuteOperation proc req.assistanceOperationKey
            req.ctx cfg now s with
        | (.error e, s1) => (.error e, s1)
        | (.ok none, s1) => (.ok none, s1)
        | (.ok (some assistanceResult), s1) =>
          if assistanceResult.assistanceRequests.isEmpty then
            (.ok (some assistanceResult), s1)
          else
            let base :=
              if assistanceResult.prependAssistanceFromRequests then []
              else assistanceResult.assistance
            match resolveAssistanceRequests
                (handleAssistanceRequest reg supported cfg now fuel)
                assistanceResult.assistanceRequests s1 with
            | (.error e, s2) => (.error e, s2)
            | (.ok chained, s2) =>
              let assistance := base ++ chained
              let assistance :=
                if assistanceResult.prependAssistanceFromRequests then
                  assistance ++ assistanceResult.assistance
                else assistance
              (.ok (some { assistance := assistance }), s2)

/-- The continuation loop of `update_assistance` (`src/service/assistance.py`,
lines 328–342): each `next_operation_key` is dispatched, an
`AssistanceOperationException` is caught and skipped, a `None` result is
skipped, and produced instances accumulate in order. -/
def updateAssistanceLoop
    (handle : AssistanceRequest → Store → Except EngineError (Option AssistanceResult) × Store)
    (typeKey : Option String) (ctx : AssistanceContext) :
    List String → List Assistance → Store → Except EngineError (List Assistance) × Store
  | [], acc, s => (.ok acc, s)
  | nextOperationKey :: rest, acc, s =>
    match handle { assistanceTypeKey := typeKey.getD "",
                   assistanceOperationKey := nextOperationKey, ctx := ctx } s with
    | (.error (.assistanceOperation _), s1) => updateAssistanceLoop handle typeKey ctx rest acc s1
    | (.error e, s1) => (.error e, s1)
    | (.ok none, s1) => updateAssistanceLoop handle typeKey ctx rest acc s1
    | (.ok (some r), s1) => updateAssistanceLoop handle typeKey ctx rest (acc ++ r.assistance) s1

/-- `update_assistance` (`src/service/assistance.py`, lines 315–344), the
`appendResponse` path: mark the supplied objects as response objects,
append them to the stored instance (this is where a missing or terminal
instance raises), then re-enter the engine for every key in the instance's
`next_operation_keys`. -/
def updateAssistance (reg : List AssistanceProcessModel) (supported : List String)
    (cfg : Config) (fuel : Nat) (aId : String)
    (assistanceResponseObjects : List AssistanceObject) (now : Int) (s : Store) :
    Except EngineError (Option AssistanceResult) × Store :=
  -- Store assistance objects
  let responseObjects := assistanceResponseObjects.map
    (fun (ao : AssistanceObject) => { ao with type := some .assistanceResponseObject })
  match updateAssistanceByAIdAddingAssistanceObjects aId responseObjects now s with
  | (.error e, s1) => (.error e, s1)
  | (.ok assistance, s1) =>
    -- Check which further assistance has to be provided
    let ctx : AssistanceContext := { parameterDict := [
      (assistanceContextParameterKeyAId, .str aId),
      (assistanceContextParameterKeyAssistanceObjects, .assistanceObjects responseObjects)] }
    match updateAssistanceLoop (handleAssistanceRequest reg supported cfg now fuel)
        assistance.typeKey ctx assistance.nextOperationKeys [] s1 with
    | (.error e, s2) => (.error e, s2)
    | (.ok acc, s2) =>
      ((.ok (if acc.isEmpty then none else some { assistance := acc })), s2)

/-- The `AssistanceRequest` rebuilt from a stored scheduled-operation
record (`check_scheduled_assistance_operations`, lines 296–301). -/
def requestOfScheduledOperation (opDoc : ScheduledOperationDoc) : AssistanceRequest :=
  { assistanceTypeKey := opDoc.assistanceTypeKey.getD "",
    assistanceOperationKey := opDoc.assistanceOperationKey.getD "",
    ctx := { parameterDict := opDoc.ctxParameterDict } }

/-- The per-entry loop of `check_scheduled_assistance_operations`
(`src/service/assistance.py`, lines 292–312): rebuild the request from the
stored record, run it through the engine, and delete the record — the
delete is skipped when the engine raised, since the `try` block catches
the exception after the delete statement was bypassed.  The returned list
logs the engine invocations the loop performed (one per due record). -/
def sweepScheduledOperationsLoop
    (handle : AssistanceRequest → Store → Except EngineError (Option AssistanceResult) × Store) :
    List ScheduledOperationDoc → Store → List AssistanceRequest × Store
  | [], s => ([], s)
  | opDoc :: rest, s =>
    let req : AssistanceRequest := requestOfScheduledOperation opDoc
    match handle req s with
    | (.error _, s1) =>
      let rs := sweepScheduledOperationsLoop handle rest s1
      (req :: rs.1, rs.2)
    | (.ok _, s1) =>
      let s2 := deleteAssistanceOperation opDoc s1
      let rs := sweepScheduledOperationsLoop handle rest s2
      (req :: rs.1, rs.2)

/-- `check_scheduled_assistance_operations` (`src/service/assistance.py`,
lines 285–312): in debug mode with the disable setting on, do nothing;
otherwise sweep every scheduled record whose `time_of_invocation` is due. -/
def checkScheduledAssistanceOperations (reg : List AssistanceProcessModel)
    (supported : List String) (cfg : Config) (fuel : Nat) (now : Int) (s : Store) :
    List AssistanceRequest × Store :=
  if cfg.debugMode && (cfg.scheduledAssistanceDisabled.getD false) then ([], s)
  else
    sweepScheduledOperationsLoop (handleAssistanceRequest reg supported cfg now fuel)
      (readAssistanceOperationByTimeOfInvocationBeforeDate now s) s

/- ------------------------------------------------------------------ -/
/- The greeting process                                                -/
/- (`src/assistance/reactive_assistance/greeting.py`).                 -/
/- ------------------------------------------------------------------ -/

/-- `LOCALE_IDENTIFIER_DE` from `src/service/i18n.py`. -/
def localeIdentifierDe : String := "de"

/-- Modelled from the spec: the translation function `t(locale, key, …)`
of `src/service/i18n.py` reads external locale catalogues (spec §6 lists
it as a consumed collaborator, not specified here); it is abstracted as
the injective pairing of locale and message key. -/
def t (locale : String) (key : String) : String := locale ++ ":" ++ key

/-- `get_user_id` (`src/service/statement.py`): `actor.account.name`,
raising `AttributeError` when the statement has no user. -/
def getUserId (statement : Statement) : Except EngineError String :=
  match statement.actorAccountName with
  | none => .error .attributeError
  | some userId => .ok userId

/-- `GreetingAssistance.get_key()`. -/
def greetingAssistanceKey : String := "greeting"

/-- `GreetingAssistance.TOOLCHECK_SCREENCAST_HINT_OPERATION_KEY`. -/
def toolcheckScreencastHintOperationKey : String := "screencast_hint_operation"

/-- `GreetingAssistanceInitiationOperation.is_applicable`: applicable
exactly when the context's statement id resolves to a stored statement
whose verb is LOGGED_IN; a missing statement or parameter yields `False`. -/
def greetingInitiationIsApplicable (_ : OperationState) (ctx : AssistanceContext)
    (s : Store) : Except EngineError Bool :=
  match ctx.getParameter assistanceContextParameterKeyStatementId with
  | .error _ => .ok false
  | .ok v =>
    match readStatementByIdValue v s with
    | none => .ok false
    | some statement => .ok (statement.verbId == statementVerbIdLoggedIn)

/-- `GreetingAssistanceInitiationOperation._execute`
(`src/assistance/reactive_assistance/greeting.py`, lines 86–125): for a
user with at most one experience, switch the operation to
`IN_PROGRESS` with one SCHEDULED follow-up (the toolcheck screencast hint,
due in 5 s) and emit a greeting message; otherwise keep the constructed
`COMPLETED` target and emit a welcome-back message.  Either way the result
is one fresh assistance carrying one message object for the user. -/
def greetingInitiationExecute (op : OperationState) (ctx : AssistanceContext) (s : Store) :
    Except EngineError (OperationState × Option AssistanceResult) :=
  match ctx.getParameter assistanceContextParameterKeyStatementId with
  | .error e => .error e
  | .ok v =>
    match readStatementByIdValue v s with
    | none => .error .attributeError
    | some statement =>
      match getUserId statement with
      | .error e => .error e
      | .ok userId =>
        match readStudentModelByUserId userId s with
        | none => .error .studentModelNotExists
        | some studentModel =>
          let firstLogin :=
            match studentModel.experiences with
            | none => true
            | some es => es.length ≤ 1
          let messageOp : String × OperationState :=
            if firstLogin then
              (t localeIdentifierDe "assistance.greeting.operation.greeting",
               { op with targetStatus := some .inProgress,
                         subsequentOperations := some [{
                           type := .scheduledOperation,
                           operationKey := toolcheckScreencastHintOperationKey,
                           timeToInvocationInS := some 5 }] })
            else
              (t localeIdentifierDe "assistance.greeting.operation.welcome_back", op)
          .ok (messageOp.2, some { assistance := [
            Assistance.createWithDefaultParameters (some userId)
              [AssistanceObject.createWithDefaultParameters (some userId)
                [AssistanceParameter.createWithDefaultParameters
                  assistanceObjectParameterKeyMessage (.str messageOp.1)]]] })

/-- `ToolcheckScreencastHintOperation._execute`: reload the owning
instance and replace its produced objects with one hint message carrying a
screencast URI. -/
def toolcheckScreencastHintExecute (op : OperationState) (ctx : AssistanceContext)
    (s : Store) : Except EngineError (OperationState × Option AssistanceResult) :=
  match ctx.getParameter assistanceContextParameterKeyAId with
  | .error e => .error e
  | .ok v =>
    match readAssistanceByAIdValue v s with
    | none => .error .attributeError
    | some assistance =>
      let assistance := { assistance with assistanceObjects := [
        AssistanceObject.createWithDefaultParameters assistance.userId
          [AssistanceParameter.createWithDefaultParameters assistanceObjectParameterKeyMessage
            (.str (t localeIdentifierDe "assistance.greeting.operation.toolcheck_screencast_hint")),
           AssistanceParameter.createWithDefaultParameters assistanceObjectParameterKeyUri
            (.str "https://youtu.be/AJPM0PD0kx4")]] }
      .ok (op, some { assistance := [assistance] })

/-- The initiation operation as constructed in `GreetingAssistance.__init__`
(`target_status=COMPLETED`, all other fields defaulted). -/
def greetingInitiationOperationImpl : OperationImpl :=
  { init := { targetStatus := some .completed },
    isApplicableFn := greetingInitiationIsApplicable,
    executeFn := greetingInitiationExecute }

/-- The toolcheck screencast hint operation as constructed in
`GreetingAssistance.__init__` (`post_init` re-asserts the in-progress
requirement the constructor already sets). -/
def toolcheckScreencastHintOperationImpl : OperationImpl :=
  { init := { targetStatus := some .completed, subsequentOperations := some [],
              assistanceInProgressRequired := true, deleteScheduledOperations := true,
              sendStateUpdateToRelatedUsers := false },
    isApplicableFn := defaultIsApplicable,
    executeFn := toolcheckScreencastHintExecute }

/-- The greeting process with its two operations registered by key
(`_register_operation` performs plain dict insertion; no phases, hence an
empty phase-number index). -/
def greetingProcess : AssistanceProcessModel :=
  { key := greetingAssistanceKey,
    registeredOperations := [
      (assistanceOperationKeyInitiation, greetingInitiationOperationImpl),
      (toolcheckScreencastHintOperationKey, toolcheckScreencastHintOperationImpl)],
    operationKeysToPhaseNumber := [] }

/- ------------------------------------------------------------------ -/
/- Concrete instances used by the verification below.                  -/
/- ------------------------------------------------------------------ -/

/-- An operation requiring an in-progress owner, otherwise defaulted. -/
def c1Op : OperationState := { assistanceInProgressRequired := true }

/-- A stored instance whose state is COMPLETED (terminal). -/
def c1Doc : AssistanceDoc :=
  { aId := "a-0",
    assistanceState := some { status := some .completed, phase := none, step := none } }

/-- A store holding only the terminal instance `a-0`. -/
def c1Store : Store := { assistanceRecords := [c1Doc] }

/-- A context whose `a_id` resolves to the terminal instance `a-0`. -/
def c1Ctx : AssistanceContext :=
  { parameterDict := [(assistanceContextParameterKeyAId, .str "a-0")] }

/-- A stored instance whose state is ABORTED (terminal). -/
def c2Doc : AssistanceDoc :=
  { aId := "a-1",
    assistanceState := some { status := some .aborted, phase := none, step := none } }

/-- A store holding only the terminal instance `a-1`. -/
def c2Store : Store := { assistanceRecords := [c2Doc] }

/-- A non-serializable context value: an instance of a class defined in an
application module (its `__class__.__module__` is not `builtins`). -/
def c6CustomValue : CtxValue := .custom "service.stomp" false

/-- The context produced by `add_parameter("payload", c6CustomValue)` on a
fresh context: the non-serializable value is stored and
`context_can_be_persisted` is (still) `True`. -/
def c6Ctx : AssistanceContext :=
  { parameterDict := [("payload", c6CustomValue)], contextCanBePersisted := true }

/-- An operation with an in-progress requirement and `prevent_progress`
set whose `_execute` returns `None` (the "still waiting for the rest of
the group" pattern). -/
def c3Impl : OperationImpl :=
  { init := { assistanceInProgressRequired := true, preventProgress := true },
    isApplicableFn := defaultIsApplicable,
    executeFn := defaultExecuteFn }

/-- A process registering only that operation. -/
def c3Proc : AssistanceProcessModel :=
  { key := "c3_process",
    registeredOperations := [("noop", c3Impl)],
    operationKeysToPhaseNumber := [] }

/-- A stored non-terminal instance with one pending next-operation key. -/
def c3Doc : AssistanceDoc :=
  { aId := "a-3",
    assistanceState := some { status := some .inProgress, phase := none, step := none },
    nextOperationKeys := ["k"] }

/-- A store holding only that instance. -/
def c3Store : Store := { assistanceRecords := [c3Doc] }

/-- A context addressing the stored instance `a-3`. -/
def c3Ctx : AssistanceContext :=
  { parameterDict := [(assistanceContextParameterKeyAId, .str "a-3")] }

/-- An operation declaring one TRIGGERED follow-up whose `_execute`
produces one fresh instance for user `u1`. -/
def c3WitnessImpl : OperationImpl :=
  { init :=
      { subsequentOperations :=
          some [{ type := .triggeredOperation, operationKey := "next_step" }] },
    isApplicableFn := defaultIsApplicable,
    executeFn := fun op _ _ =>
      .ok (op,
        some { assistance := [Assistance.createWithDefaultParameters (some "u1") []] }) }

/-- A process registering the witness operation. -/
def c3WitnessProc : AssistanceProcessModel :=
  { key := "c3_witness_process",
    registeredOperations := [("step", c3WitnessImpl)],
    operationKeysToPhaseNumber := [] }

/-- The operation state after `execute` prepared the witness operation. -/
def c3WitnessOpAfter : OperationState :=
  { subsequentOperations :=
      some [{ type := .triggeredOperation, operationKey := "next_step" }],
    resetNextOperationKeys := true }

/-- The document created by the witness execution. -/
def c3WitnessDoc : AssistanceDoc :=
  { aId := "a-0", userId := some "u1", typeKey := some "c3_witness_process",
    timestamp := some 0,
    assistanceState := some { status := none, phase := none, step := none },
    nextOperationKeys := ["next_step"] }

/-- The persisted instance returned by the witness execution. -/
def c3WitnessPersisted : Assistance :=
  { aId := some "a-0", userId := some "u1", typeKey := some "c3_witness_process",
    timestamp := some 0,
    assistanceState := some { status := none, phase := none, step := none },
    nextOperationKeys := ["next_step"] }

/-- The store after the witness execution. -/
def c3WitnessStoreAfter : Store :=
  { assistanceRecords := [c3WitnessDoc], nextAssistanceNum := 1 }

/-- The record written by scheduling the greeting initiation with delay 5
at time 100 into the empty store (factor 1 outside debug mode). -/
def c4Rec : ScheduledOperationDoc :=
  { opId := 0, assistanceTypeKey := some greetingAssistanceKey,
    assistanceOperationKey := some assistanceOperationKeyInitiation,
    aId := some "a-0", ctxParameterDict := [],
    timeOfInvocation := 105 }

/-- A store holding only the due record `c4Rec`. -/
def c4SweepStore : Store := { scheduledOperations := [c4Rec], nextScheduledNum := 1 }

/-- The chained request dispatched by the C7 parent operation. -/
def c7ChildReq : AssistanceRequest :=
  { assistanceTypeKey := "c7_process", assistanceOperationKey := "child", ctx := {} }

/-- An operation producing one fresh instance for user `u2` (the chained
operation resolved while handling the parent's requests). -/
def c7ChildImpl : OperationImpl :=
  { init := {},
    isApplicableFn := defaultIsApplicable,
    executeFn := fun op _ _ =>
      .ok (op,
        some { assistance := [Assistance.createWithDefaultParameters (some "u2") []] }) }

/-- An operation producing one fresh instance for user `u1` together with
one chained request and the prepend flag set. -/
def c7ParentImpl : OperationImpl :=
  { init := {},
    isApplicableFn := defaultIsApplicable,
    executeFn := fun op _ _ =>
      .ok (op,
        some { assistance := [Assistance.createWithDefaultParameters (some "u1") []],
               assistanceRequests := [c7ChildReq],
               prependAssistanceFromRequests := true }) }

/-- A process registering the parent and child operations. -/
def c7Proc : AssistanceProcessModel :=
  { key := "c7_process",
    registeredOperations := [("parent", c7ParentImpl), ("child", c7ChildImpl)],
    operationKeysToPhaseNumber := [] }

/-- A registry holding only that process. -/
def c7Reg : List AssistanceProcessModel := [c7Proc]

/-- The originating request dispatching the parent operation. -/
def c7Req : AssistanceRequest :=
  { assistanceTypeKey := "c7_process", assistanceOperationKey := "parent", ctx := {} }

/-- The parent instance as persisted by the C7 run. -/
def c7ParentPersisted : Assistance :=
  { aId := some "a-0", userId := some "u1", typeKey := some "c7_process",
    timestamp := some 0,
    assistanceState := some { status := none, phase := none, step := some "parent" } }

/-- The chained child instance as persisted by the C7 run. -/
def c7ChildPersisted : Assistance :=
  { aId := some "a-1", userId := some "u2", typeKey := some "c7_process",
    timestamp := some 0,
    assistanceState := some { status := none, phase := none, step := some "child" } }

/-- The parent's stored document. -/
def c7ParentDoc : AssistanceDoc :=
  { aId := "a-0", userId := some "u1", typeKey := some "c7_process",
    timestamp := some 0,
    assistanceState := some { status := none, phase := none, step := some "parent" } }

/-- The child's stored document. -/
def c7ChildDoc : AssistanceDoc :=
  { aId := "a-1", userId := some "u2", typeKey := some "c7_process",
    timestamp := some 0,
    assistanceState := some { status := none, phase := none, step := some "child" } }

/-- The store after the parent's execution persisted its instance. -/
def c7Store1 : Store := { assistanceRecords := [c7ParentDoc], nextAssistanceNum := 1 }

/-- The store after the chained child's execution. -/
def c7Store2 : Store :=
  { assistanceRecords := [c7ParentDoc, c7ChildDoc], nextAssistanceNum := 2 }

/-- The result returned by the parent's
`check_applicability_and_execute_operation` run. -/
def c7ParentResult : AssistanceResult :=
  { assistance := [c7ParentPersisted], assistanceRequests := [c7ChildReq],
    prependAssistanceFromRequests := true }

/-- A "logged in" statement for user `u1`. -/
def c8Stmt : Statement :=
  { id := "st-1", verbId := statementVerbIdLoggedIn, actorAccountName := some "u1" }

/-- The student model of `u1` with the given prior experiences. -/
def c8Student (es : List Experience) : StudentModel :=
  { userId := "u1", experiences := some es }

/-- A store holding the statement and the student model. -/
def c8Store (es : List Experience) : Store :=
  { statements := [c8Stmt], studentModels := [c8Student es] }

/-- The event context carrying the statement id. -/
def c8Ctx : AssistanceContext :=
  { parameterDict := [(assistanceContextParameterKeyStatementId, .str "st-1")] }

/-- The single produced object carrying the message `msg`. -/
def c8MessageObject (msg : String) : AssistanceObject :=
  { aId := some "a-0", assistanceType := some greetingAssistanceKey, aoId := some "ao-0",
    userId := some "u1", timestamp := some 0,
    parameters := [{ key := assistanceObjectParameterKeyMessage, value := .str msg }],
    type := some .assistanceObject }

/-- The new instance produced by the greeting initiation: given status,
one message object. -/
def c8Persisted (status : AssistanceStateStatus) (msg : String) : Assistance :=
  { aId := some "a-0", userId := some "u1", typeKey := some greetingAssistanceKey,
    timestamp := some 0,
    assistanceState := some { status := some status, phase := none,
                              step := some assistanceOperationKeyInitiation },
    assistanceObjects := [c8MessageObject msg] }

/-- The stored document of that instance. -/
def c8Doc (status : AssistanceStateStatus) : AssistanceDoc :=
  { aId := "a-0", userId := some "u1", typeKey := some greetingAssistanceKey,
    timestamp := some 0,
    assistanceState := some { status := some status, phase := none,
                              step := some assistanceOperationKeyInitiation },
    assistanceObjectRefs := ["ao-0"] }

/-- The SCHEDULED follow-up written in scenario A: the toolcheck
screencast hint, due 5 seconds after the event (time 0). -/
def c8SchedRec : ScheduledOperationDoc :=
  { opId := 0, assistanceTypeKey := some greetingAssistanceKey,
    assistanceOperationKey := some toolcheckScreencastHintOperationKey,
    aId := some "a-0",
    ctxParameterDict := [(assistanceContextParameterKeyAId, .str "a-0")],
    timeOfInvocation := 5 }

/-- The store after scenario A (first login): IN_PROGRESS instance,
greeting message, one scheduled follow-up. -/
def c8StoreAfterA (es : List Experience) : Store :=
  { assistanceRecords := [c8Doc .inProgress],
    assistanceObjectRecords :=
      [c8MessageObject (t localeIdentifierDe "assistance.greeting.operation.greeting")],
    scheduledOperations := [c8SchedRec],
    statements := [c8Stmt], studentModels := [c8Student es],
    nextAssistanceNum := 1, nextObjectNum := 1, nextScheduledNum := 1 }

/-- A first step with no schedule. -/
def c5Step1 : AssistancePhaseStepSpec := { operationKey := "s1", operation := {} }

/-- A second step declaring a 7-second schedule. -/
def c5Step2 : AssistancePhaseStepSpec :=
  { operationKey := "s2", operation := {}, schedule := some { timeToInvocationInS := 7 } }

/-- The single step of the second phase, with no schedule. -/
def c5Step3 : AssistancePhaseStepSpec := { operationKey := "s3", operation := {} }

/-- A two-phase definition: phase 1 has steps `s1`, `s2`; phase 2 has
step `s3`. -/
def c5Phases : List AssistancePhaseSpec :=
  [{ steps := [c5Step1, c5Step2] }, { steps := [c5Step3] }]

/-- A phase list registering the key `s1` twice. -/
def c5DupPhases : List AssistancePhaseSpec := [{ steps := [c5Step1, c5Step1] }]

/-- The registry produced by registering `c5Phases`: `s1` links to `s2`
by a SCHEDULED follow-up (delay 7), `s2` links to `s3` by a TRIGGERED
follow-up, and every step but `s1` requires an in-progress owner. -/
def c5Acc : RegistrationState :=
  { operationsToRegister := [
      ("s1", { subsequentOperations := some [{
                 type := .scheduledOperation,
                 operationKey := "s2", timeToInvocationInS := some 7 }] }),
      ("s2", { subsequentOperations := some [{
                 type := .triggeredOperation,
                 operationKey := "s3" }],
               assistanceInProgressRequired := true }),
      ("s3", { assistanceInProgressRequired := true })],
    phaseNumbers := [("s1", 1), ("s2", 1), ("s3", 2)],
    stepNumbers := [("s1", 1), ("s2", 2), ("s3", 3)] }

/-- The store after scenario B (returning login): COMPLETED instance,
welcome-back message, no scheduled follow-up. -/
def c8StoreAfterB (es : List Experience) : Store :=
  { assistanceRecords := [c8Doc .completed],
    assistanceObjectRecords :=
      [c8MessageObject (t localeIdentifierDe "assistance.greeting.operation.welcome_back")],
    scheduledOperations := [],
    statements := [c8Stmt], studentModels := [c8Student es],
    nextAssistanceNum := 1, nextObjectNum := 1, nextScheduledNum := 0 }

end TudAssistanceBackbone

namespace TudAssistanceBackbone

/- ------------------------------------------------------------------ -/
/- Theorems.                                                           -/
/- ------------------------------------------------------------------ -/

/-- C9: `replace_or_add_assistance_parameters_by_key` returns `[]` when
called with the default `parameters=None` (dropping the replacement), and
with an explicit list it returns that list with every parameter sharing
the replacement's key removed and the replacement appended as the last
element. -/
theorem c9_replaceOrAdd_spec :
    (∀ replacement : AssistanceParameter,
      replaceOrAddAssistanceParametersByKey replacement none = []) ∧
    (∀ (replacement : AssistanceParameter) (ps : List AssistanceParameter),
      replaceOrAddAssistanceParametersByKey replacement (some ps) =
        ps.filter (fun p => p.key != replacement.key) ++ [replacement] ∧
      replacement ∈ replaceOrAddAssistanceParametersByKey replacement (some ps) ∧
      ∀ p ∈ replaceOrAddAssistanceParametersByKey replacement (some ps),
        p.key = replacement.key → p = replacement) := by
  refine ⟨fun _ => rfl, fun replacement ps => ⟨rfl, ?_, ?_⟩⟩
  · simp [replaceOrAddAssistanceParametersByKey]
  · intro p hp hkey
    simp only [replaceOrAddAssistanceParametersByKey, List.mem_append,
      List.mem_filter, List.mem_singleton] at hp
    rcases hp with ⟨_, hne⟩ | h
    · simp [bne_iff_ne, hkey] at hne
    · exact h

/-- C9 witness: the theorem at concrete inputs — with `parameters=None`
the replacement is dropped, with a one-element list sharing the
replacement's key the old entry is removed and the replacement appended,
and the only element carrying the key is the replacement itself. -/
theorem c9_witness :
    replaceOrAddAssistanceParametersByKey { key := "k", value := .num 1 } none = [] ∧
    replaceOrAddAssistanceParametersByKey { key := "k", value := .num 1 }
        (some [{ key := "k", value := .num 0 }]) =
      List.filter (fun p => p.key != "k") [{ key := "k", value := .num 0 }] ++
        [{ key := "k", value := .num 1 }] ∧
    ({ key := "k", value := Value.num 1 } : AssistanceParameter) =
      { key := "k", value := Value.num 1 } :=
  ⟨c9_replaceOrAdd_spec.1 { key := "k", value := .num 1 },
   (c9_replaceOrAdd_spec.2 { key := "k", value := .num 1 }
      [{ key := "k", value := .num 0 }]).1,
   (c9_replaceOrAdd_spec.2 { key := "k", value := .num 1 }
      [{ key := "k", value := .num 0 }]).2.2
     { key := "k", value := .num 1 } (by decide) rfl⟩

/-- C1 counterexample: an operation with `assistance_in_progress_required`
set, given a context whose `a_id` resolves to a COMPLETED (terminal)
stored instance, is still applicable — `is_applicable` returns `True`,
not `False` as the claim states. -/
theorem c1_counterexample :
    c1Op.assistanceInProgressRequired = true ∧
    (readAssistanceByAId "a-0" c1Store).map (fun a => a.assistanceState) =
      some (some { status := some .completed, phase := none, step := none }) ∧
    defaultIsApplicable c1Op c1Ctx c1Store = .ok true :=
  ⟨rfl, rfl, rfl⟩

/-- C1 (amended): for an operation with the in-progress requirement,
`is_applicable` returns `False` exactly when the context carries no `a_id`
parameter; the parameter's value is never validated against the store, so
ids resolving to terminal — or to no — instances are still applicable
(and without the requirement the check is always `True`). -/
theorem c1_amended (op : OperationState) (ctx : AssistanceContext) (s : Store) :
    defaultIsApplicable op ctx s =
      .ok (!op.assistanceInProgressRequired ||
        (ctx.parameterDict.find?
          (fun p => p.1 == assistanceContextParameterKeyAId)).isSome) := by
  unfold defaultIsApplicable AssistanceContext.getParameter
  cases hreq : op.assistanceInProgressRequired
  · simp
  · simp only [Bool.not_true, Bool.false_or]
    cases hfind : ctx.parameterDict.find?
        (fun p => p.1 == assistanceContextParameterKeyAId) <;> simp [hfind]

/-- C2: once an instance's state is COMPLETED or ABORTED, the
append-response path (`update_assistance`) fails with
`CompletedAssistanceModifyException` and leaves the store unchanged — no
objects are appended. -/
theorem c2_terminal_append_fails (reg : List AssistanceProcessModel)
    (supported : List String) (cfg : Config) (fuel : Nat) (aId : String)
    (objs : List AssistanceObject) (now : Int) (s : Store) (doc : AssistanceDoc)
    (st : AssistanceState)
    (hfind : s.assistanceRecords.find? (fun d => d.aId == aId) = some doc)
    (hstate : doc.assistanceState = some st)
    (hterm : st.isTerminalStatus = true) :
    updateAssistance reg supported cfg fuel aId objs now s =
      (.error .completedAssistanceModify, s) := by
  unfold updateAssistance updateAssistanceByAIdAddingAssistanceObjects
  rw [hfind]
  simp only [hstate, hterm, if_true]

/-- C2 witness: a concrete terminal instance rejects an append. -/
theorem c2_witness :
    updateAssistance [] [] {} 1 "a-1" [] 0 c2Store =
      (.error .completedAssistanceModify, c2Store) :=
  c2_terminal_append_fails [] [] {} 1 "a-1" [] 0 c2Store c2Doc
    { status := some .aborted, phase := none, step := none } rfl rfl rfl

/-- C10: whenever `update_assistance_by_a_id_adding_assistance_objects`
fails with the instance-not-found or the terminal-instance error, it does
so before creating any assistance-object documents and before replacing
the assistance record: the store comes back unchanged. -/
theorem c10_failing_update_leaves_store_unchanged (aId : String)
    (objs : List AssistanceObject) (now : Int) (s : Store) :
    (s.assistanceRecords.find? (fun d => d.aId == aId) = none →
      updateAssistanceByAIdAddingAssistanceObjects aId objs now s =
        (.error .assistanceNotExists, s)) ∧
    (∀ (doc : AssistanceDoc) (st : AssistanceState),
      s.assistanceRecords.find? (fun d => d.aId == aId) = some doc →
      doc.assistanceState = some st → st.isTerminalStatus = true →
      updateAssistanceByAIdAddingAssistanceObjects aId objs now s =
        (.error .completedAssistanceModify, s)) := by
  constructor
  · intro hfind
    unfold updateAssistanceByAIdAddingAssistanceObjects
    rw [hfind]
  · intro doc st hfind hstate hterm
    unfold updateAssistanceByAIdAddingAssistanceObjects
    rw [hfind]
    simp only [hstate, hterm, if_true]

/-- C10 witness: a concrete failing call (unknown id on an empty store)
raises before touching the store, and one on a terminal instance does the
same. -/
theorem c10_witness :
    updateAssistanceByAIdAddingAssistanceObjects "x" [] 0 {} =
      (.error .assistanceNotExists, ({} : Store)) ∧
    updateAssistanceByAIdAddingAssistanceObjects "a-1" [] 0 c2Store =
      (.error .completedAssistanceModify, c2Store) :=
  ⟨(c10_failing_update_leaves_store_unchanged "x" [] 0 {}).1 rfl,
   (c10_failing_update_leaves_store_unchanged "a-1" [] 0 c2Store).2 c2Doc
     { status := some .aborted, phase := none, step := none } rfl rfl rfl⟩

/-- The state-update synthesis only ever changes the operation's
`state_update_status_to_send` default and the assistance's objects and
parameters. -/
theorem determineStateUpdate_shape (op : OperationState) (a : Assistance) :
    ∃ sus objs params,
      determineStateUpdate op a =
        ({ op with stateUpdateStatusToSend := sus },
         { a with assistanceObjects := objs, parameters := params }) := by
  unfold determineStateUpdate
  obtain ⟨ts, params, subs, req, dso, rnok, pp, ruid, ph, st, sus, ssru⟩ := op
  rcases ts with _ | ts <;> rcases ph with _ | ph <;> rcases st with _ | st <;>
    (try dsimp only) <;> (try split) <;> exact ⟨_, _, _, rfl⟩

/-- The state-update synthesis changes neither the directive fields of the
operation nor the identity and `next_operation_keys` of the assistance. -/
theorem determineStateUpdate_spec (op : OperationState) (a : Assistance) :
    (determineStateUpdate op a).1.preventProgress = op.preventProgress ∧
    (determineStateUpdate op a).1.targetStatus = op.targetStatus ∧
    (determineStateUpdate op a).1.phase = op.phase ∧
    (determineStateUpdate op a).1.step = op.step ∧
    (determineStateUpdate op a).2.aId = a.aId ∧
    (determineStateUpdate op a).2.nextOperationKeys = a.nextOperationKeys := by
  obtain ⟨sus, objs, params, h⟩ := determineStateUpdate_shape op a
  rw [h]
  exact ⟨rfl, rfl, rfl, rfl, rfl, rfl⟩

/-- Without `prevent_progress`, the property section overwrites the state
and sets `next_operation_keys` to the TRIGGERED keys. -/
theorem setAssistanceProperties_not_prevent (op : OperationState)
    (trig : List SubsequentAssistanceOperation) (a : Assistance)
    (h : op.preventProgress = false) :
    setAssistanceProperties op trig a =
      { a with
        assistanceState := some (AssistanceState.createWithDefaultParameters
          op.targetStatus op.phase op.step),
        nextOperationKeys := trig.map (fun o => o.operationKey) } := by
  simp [setAssistanceProperties, h]

/-- With `prevent_progress`, the property section is the identity. -/
theorem setAssistanceProperties_prevent (op : OperationState)
    (trig : List SubsequentAssistanceOperation) (a : Assistance)
    (h : op.preventProgress = true) :
    setAssistanceProperties op trig a = a := by
  simp [setAssistanceProperties, h]

/-- Stamping object types touches only the object list. -/
theorem stampAssistanceObjectTypes_aId (proc : AssistanceProcessModel) (a : Assistance) :
    (stampAssistanceObjectTypes proc a).aId = a.aId := rfl

/-- Stamping object types preserves `next_operation_keys`. -/
theorem stampAssistanceObjectTypes_nextOperationKeys (proc : AssistanceProcessModel)
    (a : Assistance) :
    (stampAssistanceObjectTypes proc a).nextOperationKeys = a.nextOperationKeys := rfl

/-- Scheduling a single operation never touches the assistance records. -/
theorem scheduleOperation_assistanceRecords (proc : AssistanceProcessModel)
    (operationKey : String) (ctx : AssistanceContext) (d : Int) (aid : Option String)
    (cfg : Config) (now : Int) (s : Store) :
    (scheduleOperation proc operationKey ctx d aid cfg now s).2.assistanceRecords =
      s.assistanceRecords := by
  unfold scheduleOperation createAssistanceOperationForScheduledInvocation
  split
  · rfl
  · split <;> rfl

/-- The follow-up schedule loop never touches the assistance records. -/
theorem scheduleSubsequentOperations_assistanceRecords (proc : AssistanceProcessModel)
    (cfg : Config) (now : Int) (aid : Option String)
    (ops : List SubsequentAssistanceOperation) (s : Store) :
    (scheduleSubsequentOperations proc cfg now aid ops s).2.assistanceRecords =
      s.assistanceRecords := by
  induction ops generalizing s with
  | nil => rfl
  | cons so rest ih =>
    unfold scheduleSubsequentOperations
    cases so.timeToInvocationInS with
    | none => rfl
    | some d =>
      dsimp only
      split
      next e s1 heq =>
        have h2 := congrArg (fun p => p.2.assistanceRecords) heq
        dsimp only at h2
        rw [← h2, scheduleOperation_assistanceRecords]
      next r s1 heq =>
        have h2 := congrArg (fun p => p.2.assistanceRecords) heq
        dsimp only at h2
        rw [ih, ← h2, scheduleOperation_assistanceRecords]

/-- Replacing a document keeps the replacement in the list whenever some
document with its id was present. -/
theorem replaceAssistanceDocList_mem (l : List AssistanceDoc) (docU : AssistanceDoc)
    (h : ∃ d ∈ l, d.aId = docU.aId) : docU ∈ replaceAssistanceDocList l docU := by
  induction l with
  | nil => rcases h with ⟨d, hd, _⟩; cases hd
  | cons d ds ih =>
    unfold replaceAssistanceDocList
    by_cases hb : d.aId = docU.aId
    · simp [hb]
    · have hbeq : (d.aId == docU.aId) = false := by
        simp [hb]
      rw [hbeq]
      simp only [Bool.false_eq_true, if_false, List.mem_cons]
      right
      apply ih
      rcases h with ⟨d', hd', haid⟩
      rcases List.mem_cons.mp hd' with rfl | hmem
      · exact absurd haid hb
      · exact ⟨d', hmem, haid⟩

/-- Replacing a document with one sharing the witnessed key list preserves
the existence of a document with a given id and key list. -/
theorem replaceAssistanceDocList_exists (l : List AssistanceDoc) (docU : AssistanceDoc)
    (aid : String) (K : List String) (hU : docU.nextOperationKeys = K)
    (h : ∃ d ∈ l, d.aId = aid ∧ d.nextOperationKeys = K) :
    ∃ d ∈ replaceAssistanceDocList l docU, d.aId = aid ∧ d.nextOperationKeys = K := by
  induction l with
  | nil => rcases h with ⟨d, hd, _⟩; cases hd
  | cons d ds ih =>
    unfold replaceAssistanceDocList
    by_cases hb : d.aId = docU.aId
    · have hbeq : (d.aId == docU.aId) = true := by simp [hb]
      rw [hbeq]
      simp only [if_true]
      rcases h with ⟨d', hd', haid, hkeys⟩
      rcases List.mem_cons.mp hd' with rfl | hmem
      · exact ⟨docU, List.mem_cons_self _ _, by rw [← hb, haid], hU⟩
      · exact ⟨d', List.mem_cons_of_mem _ hmem, haid, hkeys⟩
    · have hbeq : (d.aId == docU.aId) = false := by simp [hb]
      rw [hbeq]
      simp only [Bool.false_eq_true, if_false]
      rcases h with ⟨d', hd', haid, hkeys⟩
      rcases List.mem_cons.mp hd' with rfl | hmem
      · exact ⟨d', List.mem_cons_self _ _, haid, hkeys⟩
      · rcases ih ⟨d', hmem, haid, hkeys⟩ with ⟨d2, hd2, h2⟩
        exact ⟨d2, List.mem_cons_of_mem _ hd2, h2⟩

/-- Creating an assistance appends exactly one document, carrying the
in-memory instance's `next_operation_keys`, and returns that document
loaded. -/
theorem createAssistance_spec (a : Assistance) (now : Int) (s : Store) :
    ∃ doc : AssistanceDoc,
      (createAssistance a now s).2.assistanceRecords = s.assistanceRecords ++ [doc] ∧
      (createAssistance a now s).1.aId = some doc.aId ∧
      doc.nextOperationKeys = a.nextOperationKeys ∧
      (createAssistance a now s).1.nextOperationKeys = a.nextOperationKeys := by
  unfold createAssistance
  dsimp only
  split <;> exact ⟨_, rfl, rfl, rfl, rfl⟩

/-- A successful `update_assistance_adding_assistance_objects` replaces the
first stored document with the passed instance's identity and
`next_operation_keys`, and returns it loaded. -/
theorem updateAssistanceAdding_ok_spec (a : Assistance) (now : Int) (s : Store)
    (p : Assistance) (s1 : Store)
    (h : updateAssistanceAddingAssistanceObjects a now s = (.ok p, s1)) :
    p.nextOperationKeys = a.nextOperationKeys ∧
    ∃ docU : AssistanceDoc, p.aId = some docU.aId ∧ a.aId = some docU.aId ∧
      docU.nextOperationKeys = a.nextOperationKeys ∧
      s1.assistanceRecords = replaceAssistanceDocList s.assistanceRecords docU ∧
      ∃ d ∈ s.assistanceRecords, d.aId = docU.aId := by
  unfold updateAssistanceAddingAssistanceObjects at h
  cases haid : a.aId with
  | none => rw [haid] at h; cases h
  | some aId =>
    rw [haid] at h
    dsimp only at h
    cases hfind : s.assistanceRecords.find? (fun d => d.aId == aId) with
    | none => rw [hfind] at h; cases h
    | some existingDoc =>
      rw [hfind] at h
      dsimp only at h
      have hmem : existingDoc ∈ s.assistanceRecords := List.mem_of_find?_eq_some hfind
      have haideq : existingDoc.aId = aId := by
        have := List.find?_some hfind
        exact eq_of_beq this
      cases hstate : existingDoc.assistanceState with
      | none => rw [hstate] at h; cases h
      | some st =>
        rw [hstate] at h
        dsimp only at h
        by_cases hterm : st.isTerminalStatus = true
        · rw [hterm] at h; simp at h
        · rw [Bool.not_eq_true] at hterm
          rw [hterm] at h
          simp only [Bool.false_eq_true, if_false] at h
          by_cases hobjs : a.assistanceObjects.isEmpty = true
          · rw [hobjs] at h
            simp only [if_true] at h
            injection h with h1 h2
            injection h1 with h1
            subst h1
            subst h2
            exact ⟨rfl,
              { aId := aId, userId := a.userId, typeKey := a.typeKey,
                timestamp := a.timestamp, assistanceState := a.assistanceState,
                parameters := a.parameters,
                assistanceObjectRefs := existingDoc.assistanceObjectRefs,
                nextOperationKeys := a.nextOperationKeys },
              rfl, rfl, rfl, rfl, existingDoc, hmem, haideq⟩
          · rw [Bool.not_eq_true] at hobjs
            rw [hobjs] at h
            simp only [Bool.false_eq_true, if_false] at h
            injection h with h1 h2
            injection h1 with h1
            subst h1
            subst h2
            exact ⟨rfl,
              { aId := aId, userId := a.userId, typeKey := a.typeKey,
                timestamp := a.timestamp, assistanceState := a.assistanceState,
                parameters := a.parameters,
                assistanceObjectRefs := existingDoc.assistanceObjectRefs ++
                  List.filterMap (fun ao => ao.aoId)
                    (createAssistanceObjects a.assistanceObjects aId now s).1,
                nextOperationKeys := a.nextOperationKeys },
              rfl, rfl, rfl, rfl, existingDoc, hmem, haideq⟩

/-- Replacing the first document with a given id by one carrying the same
key list preserves, for every id, the key list seen through `find?`. -/
theorem replaceAssistanceDocList_find_keys (l : List AssistanceDoc)
    (docU : AssistanceDoc)
    (hU : (l.find? (fun d => d.aId == docU.aId)).map (fun d => d.nextOperationKeys) =
      some docU.nextOperationKeys) (aid : String) :
    ((replaceAssistanceDocList l docU).find? (fun d => d.aId == aid)).map
        (fun d => d.nextOperationKeys) =
      (l.find? (fun d => d.aId == aid)).map (fun d => d.nextOperationKeys) := by
  induction l with
  | nil => rfl
  | cons d ds ih =>
    unfold replaceAssistanceDocList
    by_cases hb : d.aId = docU.aId
    · have hbeq : (d.aId == docU.aId) = true := by simp [hb]
      rw [hbeq]
      simp only [if_true]
      rw [List.find?_cons, List.find?_cons] at *
      by_cases hmatch : d.aId = aid
      · have h1 : (d.aId == aid) = true := by simp [hmatch]
        have h2 : (docU.aId == aid) = true := by simp [← hb, hmatch]
        rw [h1, h2]
        simp only [Option.map_some]
        rw [hbeq] at hU
        simp only [Option.map_some, Option.some.injEq] at hU
        simp [hU]
      · have h1 : (d.aId == aid) = false := by simp [hmatch]
        have h2 : (docU.aId == aid) = false := by simp [← hb, hmatch]
        rw [h1, h2]
    · have hbeq : (d.aId == docU.aId) = false := by simp [hb]
      rw [hbeq]
      simp only [Bool.false_eq_true, if_false]
      rw [List.find?_cons, List.find?_cons]
      by_cases hmatch : d.aId = aid
      · have h1 : (d.aId == aid) = true := by simp [hmatch]
        rw [h1]
      · have h1 : (d.aId == aid) = false := by simp [hmatch]
        rw [h1]
        apply ih
        rw [List.find?_cons, hbeq] at hU
        exact hU

/-- The store after `update_assistance_adding_assistance_objects` is either
untouched (an error was raised first) or has its assistance collection
equal to a replacement by a document carrying the passed instance's
`next_operation_keys`. -/
theorem updateAssistanceAdding_store_spec (a : Assistance) (now : Int) (s : Store) :
    (updateAssistanceAddingAssistanceObjects a now s).2 = s ∨
    ∃ docU : AssistanceDoc, a.aId = some docU.aId ∧
      docU.nextOperationKeys = a.nextOperationKeys ∧
      (updateAssistanceAddingAssistanceObjects a now s).2.assistanceRecords =
        replaceAssistanceDocList s.assistanceRecords docU := by
  unfold updateAssistanceAddingAssistanceObjects
  split
  · exact Or.inl rfl
  next aId heq =>
    split
    · exact Or.inl rfl
    · split
      · exact Or.inl rfl
      · split
        · exact Or.inl rfl
        · dsimp only
          split
          · exact Or.inr ⟨_, by rw [heq], rfl, rfl⟩
          · exact Or.inr ⟨_, by rw [heq], rfl, rfl⟩

/-- A successful persist returns an instance carrying the input's
`next_operation_keys`, whose id names a stored document with those keys. -/
theorem persist_ok_spec (proc : AssistanceProcessModel) (cfg : Config) (now : Int)
    (schedOps : List SubsequentAssistanceOperation) (a : Assistance) (s : Store)
    (p : Assistance) (s' : Store)
    (h : persistAssistanceAndScheduleFollowUps proc cfg now schedOps a s = (.ok p, s')) :
    p.nextOperationKeys = a.nextOperationKeys ∧
    ∃ doc ∈ s'.assistanceRecords, p.aId = some doc.aId ∧
      doc.nextOperationKeys = a.nextOperationKeys := by
  unfold persistAssistanceAndScheduleFollowUps at h
  split at h
  · -- create path
    (try dsimp only at h)
    split at h
    next e s2 hsch => cases h
    next r s2 hsch =>
      injection h with h1 h2
      injection h1 with h1
      subst h1
      subst h2
      obtain ⟨doc, hrec, hpa, hdk, hpk⟩ :=
        createAssistance_spec { a with typeKey := some proc.key } now s
      have hs2 := scheduleSubsequentOperations_assistanceRecords proc cfg now
        (createAssistance { a with typeKey := some proc.key } now s).1.aId schedOps
        (createAssistance { a with typeKey := some proc.key } now s).2
      rw [hsch] at hs2
      refine ⟨hpk, doc, ?_, hpa, hdk⟩
      rw [hs2, hrec]
      exact List.mem_append_right _ (List.mem_singleton_self _)
  next aId haid =>
    -- update path
    (try dsimp only at h)
    split at h
    · cases h
    next prev hread =>
      split at h
      next e s1u hupd => cases h
      next p0 s1u hupd =>
        split at h
        next e s2 hsch => cases h
        next r s2 hsch =>
          injection h with h1 h2
          injection h1 with h1
          subst h1
          subst h2
          obtain ⟨hk0, docU, hpa0, _haid0, hdk, hrec, d0, hd0mem, hd0aid⟩ :=
            updateAssistanceAdding_ok_spec a now s p0 s1u hupd
          have hs2 := scheduleSubsequentOperations_assistanceRecords proc cfg now
            ({ p0 with assistanceObjects := (p0.assistanceObjects.filter
                (fun ao => !(previousAssistanceObjects prev).contains ao.aoId)) } :
              Assistance).aId schedOps s1u
          rw [hsch] at hs2
          refine ⟨hk0, docU, ?_, hpa0, hdk⟩
          rw [hs2, hrec]
          exact replaceAssistanceDocList_mem _ _ ⟨d0, hd0mem, hd0aid⟩

/-- Any persist outcome preserves the existence of a stored document with a
given id and the key list the persisted instance itself carries. -/
theorem persist_preserves (proc : AssistanceProcessModel) (cfg : Config) (now : Int)
    (schedOps : List SubsequentAssistanceOperation) (a : Assistance) (s : Store)
    (r : Except EngineError Assistance) (s' : Store) (K : List String) (aid : String)
    (hK : a.nextOperationKeys = K)
    (h : persistAssistanceAndScheduleFollowUps proc cfg now schedOps a s = (r, s'))
    (hinv : ∃ d ∈ s.assistanceRecords, d.aId = aid ∧ d.nextOperationKeys = K) :
    ∃ d ∈ s'.assistanceRecords, d.aId = aid ∧ d.nextOperationKeys = K := by
  have hcreate : ∀ (s2 : Store) (rs : Except EngineError Unit),
      scheduleSubsequentOperations proc cfg now
          (createAssistance { a with typeKey := some proc.key } now s).1.aId schedOps
          (createAssistance { a with typeKey := some proc.key } now s).2 = (rs, s2) →
      ∃ d ∈ s2.assistanceRecords, d.aId = aid ∧ d.nextOperationKeys = K := by
    intro s2 rs hsch
    have hs2 := scheduleSubsequentOperations_assistanceRecords proc cfg now
      (createAssistance { a with typeKey := some proc.key } now s).1.aId schedOps
      (createAssistance { a with typeKey := some proc.key } now s).2
    rw [hsch] at hs2
    obtain ⟨doc, hrec, _, _, _⟩ :=
      createAssistance_spec { a with typeKey := some proc.key } now s
    obtain ⟨d, hdmem, hdprop⟩ := hinv
    refine ⟨d, ?_, hdprop⟩
    rw [hs2, hrec]
    exact List.mem_append_left _ hdmem
  unfold persistAssistanceAndScheduleFollowUps at h
  split at h
  · -- create path
    (try dsimp only at h)
    split at h
    next e s2 hsch =>
      injection h with h1 h2
      subst h2
      exact hcreate s2 _ hsch
    next r0 s2 hsch =>
      injection h with h1 h2
      subst h2
      exact hcreate s2 _ hsch
  next aId haid =>
    (try dsimp only at h)
    split at h
    · -- read returned none: the store is unchanged
      injection h with h1 h2
      subst h2
      exact hinv
    next prev hread =>
      have hupdStore := updateAssistanceAdding_store_spec a now s
      split at h
      next e s1u hupd =>
        injection h with h1 h2
        subst h2
        rw [hupd] at hupdStore
        rcases hupdStore with h1u | ⟨docU, hUaid, hUK, hUrec⟩
        · dsimp only at h1u
          rw [h1u]
          exact hinv
        · dsimp only at hUrec
          obtain ⟨d2, hd2, h2p⟩ :=
            replaceAssistanceDocList_exists s.assistanceRecords docU aid K
              (by rw [hUK, hK]) hinv
          exact ⟨d2, by rw [hUrec]; exact hd2, h2p⟩
      next p0 s1u hupd =>
        have hs1u : s1u.assistanceRecords = s.assistanceRecords ∨
            ∃ docU : AssistanceDoc, docU.nextOperationKeys = K ∧
              s1u.assistanceRecords = replaceAssistanceDocList s.assistanceRecords docU := by
          rw [hupd] at hupdStore
          rcases hupdStore with h1u | ⟨docU, hUaid, hUK, hUrec⟩
          · dsimp only at h1u
            rw [h1u]
            exact Or.inl rfl
          · dsimp only at hUrec
            exact Or.inr ⟨docU, by rw [hUK, hK], hUrec⟩
        split at h
        next e s2 hsch =>
          injection h with h1 h2
          subst h2
          have hs2 := scheduleSubsequentOperations_assistanceRecords proc cfg now
            ({ p0 with assistanceObjects := (p0.assistanceObjects.filter
                (fun ao => !(previousAssistanceObjects prev).contains ao.aoId)) } :
              Assistance).aId schedOps s1u
          rw [hsch] at hs2
          rcases hs1u with h1u | ⟨docU, hUK, hUrec⟩
          · rw [hs2, h1u] at *
            exact hinv
          · obtain ⟨d2, hd2, h2p⟩ :=
              replaceAssistanceDocList_exists s.assistanceRecords docU aid K hUK hinv
            exact ⟨d2, by rw [hs2, hUrec]; exact hd2, h2p⟩
        next r0 s2 hsch =>
          injection h with h1 h2
          subst h2
          have hs2 := scheduleSubsequentOperations_assistanceRecords proc cfg now
            ({ p0 with assistanceObjects := (p0.assistanceObjects.filter
                (fun ao => !(previousAssistanceObjects prev).contains ao.aoId)) } :
              Assistance).aId schedOps s1u
          rw [hsch] at hs2
          rcases hs1u with h1u | ⟨docU, hUK, hUrec⟩
          · rw [hs2, h1u] at *
            exact hinv
          · obtain ⟨d2, hd2, h2p⟩ :=
              replaceAssistanceDocList_exists s.assistanceRecords docU aid K hUK hinv
            exact ⟨d2, by rw [hs2, hUrec]; exact hd2, h2p⟩

/-- `determineStateUpdate` as an opaque pair with the preservation facts
needed downstream. -/
theorem determineStateUpdate_components (op : OperationState) (a : Assistance) :
    ∃ op2 a2, determineStateUpdate op a = (op2, a2) ∧
      op2.preventProgress = op.preventProgress ∧
      op2.targetStatus = op.targetStatus ∧ op2.phase = op.phase ∧ op2.step = op.step ∧
      a2.aId = a.aId ∧ a2.nextOperationKeys = a.nextOperationKeys := by
  obtain ⟨sus, objs, params, h⟩ := determineStateUpdate_shape op a
  exact ⟨_, _, h, rfl, rfl, rfl, rfl, rfl, rfl⟩

/-- A Boolean `if` whose condition is the literal `false`. -/
theorem ite_false_bool {α : Sort _} (x y : α) : (if (false = true) then x else y) = y := rfl

/-- With `prevent_progress` set, the reset/delete bookkeeping does
nothing. -/
theorem resetAndDeleteBookkeeping_prevent (op : OperationState) (ctx : AssistanceContext)
    (s : Store) (h : op.preventProgress = true) :
    resetAndDeleteBookkeeping op ctx s = (.ok (), s) := by
  unfold resetAndDeleteBookkeeping
  rw [h]
  simp only [Bool.not_true, Bool.and_false, ite_false_bool]

/-- Processing one produced assistance with `prevent_progress` unset
yields an instance whose `next_operation_keys` are exactly the TRIGGERED
keys, backed by a stored document with the same keys. -/
theorem processAssistanceResultCore_ok_spec (proc : AssistanceProcessModel)
    (op : OperationState) (schedOps trigOps : List SubsequentAssistanceOperation)
    (cfg : Config) (now : Int) (a : Assistance) (s : Store) (r : Option Assistance)
    (s' : Store) (hprev : op.preventProgress = false)
    (h : processAssistanceResultCore proc op schedOps trigOps cfg now a s = (.ok r, s')) :
    ∀ p, r = some p →
      p.nextOperationKeys = trigOps.map (fun o => o.operationKey) ∧
      ∃ doc ∈ s'.assistanceRecords, p.aId = some doc.aId ∧
        doc.nextOperationKeys = trigOps.map (fun o => o.operationKey) := by
  intro p hp
  subst hp
  unfold processAssistanceResultCore at h
  obtain ⟨op2, a2, hdet, hpp, _, _, _, _, _⟩ := determineStateUpdate_components op a
  rw [hdet] at h
  dsimp only at h
  rw [setAssistanceProperties_not_prevent op2 trigOps a2 (hpp.trans hprev)] at h
  split at h
  next e s1 hpers => cases h
  next p0 s1 hpers =>
    injection h with h1 h2
    injection h1 with h1
    injection h1 with h1
    subst h1
    subst h2
    obtain ⟨hk, doc, hdm, hpa, hdk⟩ := persist_ok_spec _ _ _ _ _ _ _ _ hpers
    exact ⟨hk, doc, hdm, hpa, hdk⟩

/-- Processing one produced assistance with `prevent_progress` unset
preserves the existence of a stored document with a given id carrying the
TRIGGERED keys. -/
theorem processAssistanceResultCore_preserves (proc : AssistanceProcessModel)
    (op : OperationState) (schedOps trigOps : List SubsequentAssistanceOperation)
    (cfg : Config) (now : Int) (a : Assistance) (s : Store)
    (r : Except EngineError (Option Assistance)) (s' : Store) (aid : String)
    (hprev : op.preventProgress = false)
    (h : processAssistanceResultCore proc op schedOps trigOps cfg now a s = (r, s'))
    (hinv : ∃ d ∈ s.assistanceRecords, d.aId = aid ∧
      d.nextOperationKeys = trigOps.map (fun o => o.operationKey)) :
    ∃ d ∈ s'.assistanceRecords, d.aId = aid ∧
      d.nextOperationKeys = trigOps.map (fun o => o.operationKey) := by
  unfold processAssistanceResultCore at h
  obtain ⟨op2, a2, hdet, hpp, _, _, _, _, _⟩ := determineStateUpdate_components op a
  rw [hdet] at h
  dsimp only at h
  rw [setAssistanceProperties_not_prevent op2 trigOps a2 (hpp.trans hprev)] at h
  split at h
  next e s1 hpers =>
    injection h with h1 h2
    subst h2
    exact persist_preserves _ _ _ _ _ _ _ _ _ _ rfl hpers hinv
  next p0 s1 hpers =>
    injection h with h1 h2
    subst h2
    exact persist_preserves _ _ _ _ _ _ _ _ _ _ rfl hpers hinv

/-- `_process_assistance_result` on an explicit assistance is its core. -/
theorem processAssistanceResult_some (proc : AssistanceProcessModel)
    (op : OperationState) (a : Assistance) (ctx : AssistanceContext)
    (schedOps trigOps : List SubsequentAssistanceOperation) (cfg : Config) (now : Int)
    (s : Store) :
    processAssistanceResult proc op (some a) ctx schedOps trigOps cfg now s =
      processAssistanceResultCore proc op schedOps trigOps cfg now a s := rfl

/-- The per-assistance loop with `prevent_progress` unset preserves the
existence of a stored document with a given id carrying the TRIGGERED
keys. -/
theorem processAssistanceResultList_preserves (proc : AssistanceProcessModel)
    (op : OperationState) (ctx : AssistanceContext)
    (schedOps trigOps : List SubsequentAssistanceOperation) (cfg : Config) (now : Int)
    (hprev : op.preventProgress = false) :
    ∀ (l : List Assistance) (s : Store) (r : Except EngineError (List Assistance))
      (s' : Store),
      processAssistanceResultList proc op ctx schedOps trigOps cfg now l s = (r, s') →
      ∀ aid,
        (∃ d ∈ s.assistanceRecords, d.aId = aid ∧
          d.nextOperationKeys = trigOps.map (fun o => o.operationKey)) →
        ∃ d ∈ s'.assistanceRecords, d.aId = aid ∧
          d.nextOperationKeys = trigOps.map (fun o => o.operationKey) := by
  intro l
  induction l with
  | nil =>
    intro s r s' h aid hinv
    injection h with h1 h2
    subst h2
    exact hinv
  | cons a rest ih =>
    intro s r s' h aid hinv
    unfold processAssistanceResultList at h
    rw [processAssistanceResult_some] at h
    split at h
    next e s1 hcall =>
      injection h with h1 h2
      subst h2
      exact processAssistanceResultCore_preserves _ _ _ _ _ _ _ _ _ _ _ hprev hcall hinv
    next s1 hcall =>
      exact ih s1 r s' h aid
        (processAssistanceResultCore_preserves _ _ _ _ _ _ _ _ _ _ _ hprev hcall hinv)
    next p0 s1 hcall =>
      split at h
      next e s2 hrest =>
        injection h with h1 h2
        subst h2
        exact ih s1 _ s2 hrest aid
          (processAssistanceResultCore_preserves _ _ _ _ _ _ _ _ _ _ _ hprev hcall hinv)
      next ps s2 hrest =>
        injection h with h1 h2
        subst h2
        exact ih s1 _ s2 hrest aid
          (processAssistanceResultCore_preserves _ _ _ _ _ _ _ _ _ _ _ hprev hcall hinv)

/-- The per-assistance loop with `prevent_progress` unset gives every
returned instance the TRIGGERED keys, with a matching stored document. -/
theorem processAssistanceResultList_ok_spec (proc : AssistanceProcessModel)
    (op : OperationState) (ctx : AssistanceContext)
    (schedOps trigOps : List SubsequentAssistanceOperation) (cfg : Config) (now : Int)
    (hprev : op.preventProgress = false) :
    ∀ (l : List Assistance) (s : Store) (res : List Assistance) (s' : Store),
      processAssistanceResultList proc op ctx schedOps trigOps cfg now l s =
        (.ok res, s') →
      ∀ p ∈ res,
        p.nextOperationKeys = trigOps.map (fun o => o.operationKey) ∧
        ∃ doc ∈ s'.assistanceRecords, p.aId = some doc.aId ∧
          doc.nextOperationKeys = trigOps.map (fun o => o.operationKey) := by
  intro l
  induction l with
  | nil =>
    intro s res s' h p hp
    injection h with h1 h2
    injection h1 with h1
    subst h1
    cases hp
  | cons a rest ih =>
    intro s res s' h p hp
    unfold processAssistanceResultList at h
    rw [processAssistanceResult_some] at h
    split at h
    next e s1 hcall => cases h
    next s1 hcall => exact ih s1 res s' h p hp
    next p0 s1 hcall =>
      split at h
      next e s2 hrest => cases h
      next ps s2 hrest =>
        injection h with h1 h2
        injection h1 with h1
        subst h2
        subst h1
        rcases List.mem_cons.mp hp with rfl | hmem
        · obtain ⟨hk, doc, hdm, hpa, hdk⟩ :=
            processAssistanceResultCore_ok_spec proc op schedOps trigOps cfg now a s
              (some p) s1 hprev hcall p rfl
          refine ⟨hk, ?_⟩
          obtain ⟨d2, hd2m, hd2aid, hd2k⟩ :=
            processAssistanceResultList_preserves proc op ctx schedOps trigOps cfg now
              hprev rest s1 _ s2 hrest doc.aId ⟨doc, hdm, rfl, hdk⟩
          exact ⟨d2, hd2m, by rw [hpa, hd2aid], hd2k⟩
        · exact ih s1 ps s2 hrest p hmem

/-- A Boolean `if` whose condition is the literal `true`. -/
theorem ite_true_bool {α : Sort _} (x y : α) : (if (true = true) then x else y) = x := rfl

/-- A successful raw-value read names a stored document that the loaded
instance mirrors. -/
theorem readAssistanceByAIdValue_some (v : CtxValue) (s : Store) (a0 : Assistance)
    (h : readAssistanceByAIdValue v s = some a0) :
    ∃ (aidStr : String) (doc : AssistanceDoc),
      v = .str aidStr ∧ doc.aId = aidStr ∧
      s.assistanceRecords.find? (fun d => d.aId == aidStr) = some doc ∧
      a0.aId = some doc.aId ∧ a0.nextOperationKeys = doc.nextOperationKeys := by
  cases v with
  | str aidStr =>
    unfold readAssistanceByAIdValue readAssistanceByAId at h
    dsimp only at h
    cases hf : s.assistanceRecords.find? (fun d => d.aId == aidStr) with
    | none => rw [hf] at h; cases h
    | some doc =>
      rw [hf] at h
      injection h with h
      have hdbeq := List.find?_some hf
      have hdaid : doc.aId = aidStr := eq_of_beq hdbeq
      exact ⟨aidStr, doc, rfl, hdaid, hf, by rw [← h]; rfl, by rw [← h]; rfl⟩
  | assistanceObjects objects => cases h
  | noneV => cases h
  | custom m ser => cases h

/-- Persisting an instance that mirrors a stored document (same id, same
keys) leaves the key lists seen through `find?` unchanged for every id. -/
theorem persist_find_keys (proc : AssistanceProcessModel) (cfg : Config) (now : Int)
    (schedOps : List SubsequentAssistanceOperation) (a : Assistance) (s : Store)
    (r : Except EngineError Assistance) (s' : Store) (aid0 : String)
    (haid : a.aId = some aid0)
    (hkeys : (s.assistanceRecords.find? (fun d => d.aId == aid0)).map
        (fun d => d.nextOperationKeys) = some a.nextOperationKeys)
    (h : persistAssistanceAndScheduleFollowUps proc cfg now schedOps a s = (r, s')) :
    ∀ aid,
      (s'.assistanceRecords.find? (fun d => d.aId == aid)).map
        (fun d => d.nextOperationKeys) =
      (s.assistanceRecords.find? (fun d => d.aId == aid)).map
        (fun d => d.nextOperationKeys) := by
  intro aid
  have hreplace : ∀ docU : AssistanceDoc, a.aId = some docU.aId →
      docU.nextOperationKeys = a.nextOperationKeys →
      ((replaceAssistanceDocList s.assistanceRecords docU).find?
        (fun d => d.aId == aid)).map (fun d => d.nextOperationKeys) =
      (s.assistanceRecords.find? (fun d => d.aId == aid)).map
        (fun d => d.nextOperationKeys) := by
    intro docU hUaid hUK
    apply replaceAssistanceDocList_find_keys
    have : docU.aId = aid0 := by
      have := haid.symm.trans hUaid
      injection this with h2
      exact h2.symm
    rw [this, hUK]
    exact hkeys
  have hupdStore := updateAssistanceAdding_store_spec a now s
  unfold persistAssistanceAndScheduleFollowUps at h
  split at h
  next heq => rw [haid] at heq; cases heq
  next aId heq =>
    (try dsimp only at h)
    split at h
    · injection h with h1 h2
      subst h2
      rfl
    next prev hread =>
      split at h
      next e s1u hupd =>
        injection h with h1 h2
        subst h2
        rw [hupd] at hupdStore
        rcases hupdStore with h1u | ⟨docU, hUaid, hUK, hUrec⟩
        · dsimp only at h1u
          rw [h1u]
        · dsimp only at hUrec
          rw [hUrec]
          exact hreplace docU hUaid hUK
      next p0 s1u hupd =>
        have hs1u :
            (s1u.assistanceRecords.find? (fun d => d.aId == aid)).map
              (fun d => d.nextOperationKeys) =
            (s.assistanceRecords.find? (fun d => d.aId == aid)).map
              (fun d => d.nextOperationKeys) := by
          rw [hupd] at hupdStore
          rcases hupdStore with h1u | ⟨docU, hUaid, hUK, hUrec⟩
          · dsimp only at h1u
            rw [h1u]
          · dsimp only at hUrec
            rw [hUrec]
            exact hreplace docU hUaid hUK
        split at h
        next e s2 hsch =>
          injection h with h1 h2
          subst h2
          have hs2 := scheduleSubsequentOperations_assistanceRecords proc cfg now
            ({ p0 with assistanceObjects := (p0.assistanceObjects.filter
                (fun ao => !(previousAssistanceObjects prev).contains ao.aoId)) } :
              Assistance).aId schedOps s1u
          rw [hsch] at hs2
          rw [hs2]
          exact hs1u
        next r0 s2 hsch =>
          injection h with h1 h2
          subst h2
          have hs2 := scheduleSubsequentOperations_assistanceRecords proc cfg now
            ({ p0 with assistanceObjects := (p0.assistanceObjects.filter
                (fun ao => !(previousAssistanceObjects prev).contains ao.aoId)) } :
              Assistance).aId schedOps s1u
          rw [hsch] at hs2
          rw [hs2]
          exact hs1u

/-- Processing an existing instance with `prevent_progress` set leaves the
key lists seen through `find?` unchanged for every id. -/
theorem processAssistanceResultCore_prevent_find_keys (proc : AssistanceProcessModel)
    (op : OperationState) (schedOps trigOps : List SubsequentAssistanceOperation)
    (cfg : Config) (now : Int) (a : Assistance) (s : Store)
    (rr : Except EngineError (Option Assistance)) (s' : Store) (aid0 : String)
    (hprev : op.preventProgress = true) (haid : a.aId = some aid0)
    (hkeys : (s.assistanceRecords.find? (fun d => d.aId == aid0)).map
        (fun d => d.nextOperationKeys) = some a.nextOperationKeys)
    (h : processAssistanceResultCore proc op schedOps trigOps cfg now a s = (rr, s')) :
    ∀ aid,
      (s'.assistanceRecords.find? (fun d => d.aId == aid)).map
        (fun d => d.nextOperationKeys) =
      (s.assistanceRecords.find? (fun d => d.aId == aid)).map
        (fun d => d.nextOperationKeys) := by
  unfold processAssistanceResultCore at h
  obtain ⟨op2, a2, hdet, hpp, _, _, _, ha2aid, ha2keys⟩ :=
    determineStateUpdate_components op a
  rw [hdet] at h
  dsimp only at h
  rw [setAssistanceProperties_prevent op2 trigOps a2 (hpp.trans hprev)] at h
  have haid2 : (stampAssistanceObjectTypes proc a2).aId = some aid0 := by
    rw [stampAssistanceObjectTypes_aId, ha2aid, haid]
  have hkeys2 : (s.assistanceRecords.find? (fun d => d.aId == aid0)).map
      (fun d => d.nextOperationKeys) =
      some (stampAssistanceObjectTypes proc a2).nextOperationKeys := by
    rw [stampAssistanceObjectTypes_nextOperationKeys, ha2keys]
    exact hkeys
  split at h
  next e s1 hpers =>
    injection h with h1 h2
    subst h2
    exact persist_find_keys proc cfg now schedOps _ s _ s1 aid0 haid2 hkeys2 hpers
  next p0 s1 hpers =>
    injection h with h1 h2
    subst h2
    exact persist_find_keys proc cfg now schedOps _ s _ s1 aid0 haid2 hkeys2 hpers

/-- `_process_assistance_result` invoked with no assistance to process
and `prevent_progress` set leaves the key lists seen through `find?`
unchanged for every id. -/
theorem processAssistanceResult_none_prevent_find_keys (proc : AssistanceProcessModel)
    (op : OperationState) (ctx : AssistanceContext)
    (schedOps trigOps : List SubsequentAssistanceOperation) (cfg : Config) (now : Int)
    (s : Store) (rr : Except EngineError (Option Assistance)) (s3 : Store)
    (hprev : op.preventProgress = true)
    (h : processAssistanceResult proc op none ctx schedOps trigOps cfg now s = (rr, s3)) :
    ∀ aid,
      (s3.assistanceRecords.find? (fun d => d.aId == aid)).map
        (fun d => d.nextOperationKeys) =
      (s.assistanceRecords.find? (fun d => d.aId == aid)).map
        (fun d => d.nextOperationKeys) := by
  unfold processAssistanceResult at h
  dsimp only at h
  split at h
  · -- in-progress requirement: load the stored instance
    split at h
    next e hv =>
      injection h with h1 h2
      subst h2
      exact fun aid => rfl
    next v hv =>
      split at h
      next hread =>
        injection h with h1 h2
        subst h2
        exact fun aid => rfl
      next a0 hread =>
        obtain ⟨aidStr, doc, hvstr, hdaid, hfind, ha0aid, ha0keys⟩ :=
          readAssistanceByAIdValue_some v s a0 hread
        refine processAssistanceResultCore_prevent_find_keys proc op schedOps trigOps
          cfg now { a0 with assistanceObjects := [] } s rr s3 doc.aId hprev ha0aid ?_ h
        rw [hdaid, hfind]
        simp [ha0keys]
  · -- no requirement: a silent no-op
    injection h with h1 h2
    subst h2
    exact fun aid => rfl

/-- C3 counterexample: an execution with `prevent_progress` set leaves a
pending instance's `next_operation_keys` at their previous value `["k"]`
instead of clearing them — the claim's "empty whenever prevent_progress
was set" fails on the code. -/
theorem c3_counterexample :
    c3Impl.init.preventProgress = true ∧
    (executeOperation c3Proc c3Impl c3Ctx none none {} 0 c3Store).1 = .ok none ∧
    ((executeOperation c3Proc c3Impl c3Ctx none none {} 0 c3Store).2.assistanceRecords.find?
      (fun d => d.aId == "a-3")).map (fun d => d.nextOperationKeys) = some ["k"] ∧
    (["k"] : List String) ≠ [] :=
  ⟨rfl, rfl, rfl, by decide⟩

/-- C3 (amended): when the operation left `prevent_progress` unset, every
instance persisted by the execution carries `next_operation_keys` equal to
exactly the keys of the TRIGGERED subsequent operations declared for that
invocation, matched by its stored document; when `prevent_progress` was
set and no result was produced (the parked continuation path), the stored
`next_operation_keys` of every instance are left unchanged — not
cleared. -/
theorem c3_amended (proc : AssistanceProcessModel) (impl : OperationImpl)
    (ctx : AssistanceContext) (phase : Option Nat) (stepName : Option String)
    (cfg : Config) (now : Int) (s : Store) (op' : OperationState) :
    (∀ (result : Option AssistanceResult) (res : AssistanceResult) (s' : Store),
      impl.executeFn (preparedOperationState impl.init phase stepName) ctx s =
        .ok (op', result) →
      op'.preventProgress = false →
      executeOperation proc impl ctx phase stepName cfg now s = (.ok (some res), s') →
      ∀ p ∈ res.assistance,
        p.nextOperationKeys =
          (filterSubsequentOperationsByType op'.subsequentOperations
            .triggeredOperation).map (fun o => o.operationKey) ∧
        ∃ doc ∈ s'.assistanceRecords, p.aId = some doc.aId ∧
          doc.nextOperationKeys =
            (filterSubsequentOperationsByType op'.subsequentOperations
              .triggeredOperation).map (fun o => o.operationKey)) ∧
    (∀ (r : Except EngineError (Option AssistanceResult)) (s' : Store),
      impl.executeFn (preparedOperationState impl.init phase stepName) ctx s =
        .ok (op', none) →
      op'.preventProgress = true →
      executeOperation proc impl ctx phase stepName cfg now s = (r, s') →
      ∀ aid : String,
        ((s'.assistanceRecords.find? (fun d => d.aId == aid)).map
          (fun d => d.nextOperationKeys)) =
        ((s.assistanceRecords.find? (fun d => d.aId == aid)).map
          (fun d => d.nextOperationKeys))) := by
  constructor
  · intro result res s' hexec hprevF hrun
    unfold executeOperation at hrun
    dsimp only at hrun
    rw [hexec] at hrun
    dsimp only at hrun
    rw [hprevF] at hrun
    simp only [ite_false_bool] at hrun
    split at hrun
    next e sE hbk => simp at hrun
    next u s2 hbk =>
      cases result with
      | none =>
        dsimp only at hrun
        split at hrun
        next e s3 hproc => simp at hrun
        next r0 s3 hproc => simp at hrun
      | some rr =>
        dsimp only at hrun
        split at hrun
        · split at hrun
          next e s3 hproc => simp at hrun
          next r0 s3 hproc =>
            injection hrun with h1 h2
            injection h1 with h1
            injection h1 with h1
            subst h2
            subst h1
            intro p hp
            simp at hp
        · split at hrun
          next e s3 hplist => simp at hrun
          next collected s3 hplist =>
            injection hrun with h1 h2
            injection h1 with h1
            injection h1 with h1
            subst h2
            subst h1
            intro p hp
            exact processAssistanceResultList_ok_spec proc op' ctx _ _ cfg now hprevF
              rr.assistance s2 collected _ hplist p hp
  · intro r s' hexec hprevT hrun
    unfold executeOperation at hrun
    dsimp only at hrun
    rw [hexec] at hrun
    dsimp only at hrun
    rw [hprevT] at hrun
    simp only [ite_true_bool] at hrun
    rw [resetAndDeleteBookkeeping_prevent op' ctx s hprevT] at hrun
    dsimp only at hrun
    split at hrun
    next e s3 hproc =>
      injection hrun with h1 h2
      subst h2
      exact processAssistanceResult_none_prevent_find_keys proc op' ctx _ _ cfg now s
        _ s3 hprevT hproc
    next r0 s3 hproc =>
      injection hrun with h1 h2
      subst h2
      exact processAssistanceResult_none_prevent_find_keys proc op' ctx _ _ cfg now s
        _ s3 hprevT hproc

/-- C3 witness: the amended theorem at concrete inputs — a TRIGGERED
follow-up run sets the created instance's keys to exactly the declared
key, and a prevent-progress run leaves the stored keys untouched. -/
theorem c3_amended_witness :
    (c3WitnessPersisted.nextOperationKeys = ["next_step"] ∧
      ∃ doc ∈ c3WitnessStoreAfter.assistanceRecords,
        c3WitnessPersisted.aId = some doc.aId ∧
        doc.nextOperationKeys = ["next_step"]) ∧
    ((c3Store.assistanceRecords.find? (fun d => d.aId == "a-3")).map
        (fun d => d.nextOperationKeys) =
      (c3Store.assistanceRecords.find? (fun d => d.aId == "a-3")).map
        (fun d => d.nextOperationKeys)) :=
  ⟨(c3_amended c3WitnessProc c3WitnessImpl {} none none {} 0 {} c3WitnessOpAfter).1
      (some { assistance := [Assistance.createWithDefaultParameters (some "u1") []] })
      { assistance := [c3WitnessPersisted] } c3WitnessStoreAfter rfl rfl rfl
      c3WitnessPersisted (List.mem_singleton_self _),
   (c3_amended c3Proc c3Impl c3Ctx none none {} 0 c3Store c3Impl.init).2
      (.ok none) c3Store rfl rfl rfl "a-3"⟩

/-- C6: the code at the claim's input — `add_parameter` accepts a
non-serializable value without clearing `context_can_be_persisted`
(its guard compares the class module against the Python-2 spelling
`__builtin__`, which never matches), so `schedule_operation` subsequently
succeeds and writes the scheduled record instead of raising
`AssistanceOperationCanNotBeScheduledException`. -/
theorem c6_nonserializable_context_is_scheduled :
    c6CustomValue.serializable = false ∧
    AssistanceContext.addParameter {} "payload" c6CustomValue = .ok c6Ctx ∧
    c6Ctx.contextCanBePersisted = true ∧
    (scheduleOperation greetingProcess assistanceOperationKeyInitiation c6Ctx 5
      (some "a-0") {} 100 {}).1 = .ok () ∧
    (scheduleOperation greetingProcess assistanceOperationKeyInitiation c6Ctx 5
      (some "a-0") {} 100 {}).2.scheduledOperations =
      [{ opId := 0, assistanceTypeKey := some greetingAssistanceKey,
         assistanceOperationKey := some assistanceOperationKeyInitiation,
         aId := some "a-0", ctxParameterDict := [("payload", c6CustomValue)],
         timeOfInvocation := 105 }] :=
  ⟨rfl, rfl, rfl, rfl, rfl⟩

/-- C4: scheduling a registered operation with a persistable context and
delay `d` at time `now` succeeds and appends exactly one
scheduled-operation record due at
`now + d * factor` (factor the stored debug setting in debug mode, `1`
otherwise); a sweep at a time the record is due (with scheduled
assistance not disabled) rebuilds its request, runs it through the engine
exactly once — the invocation log is that single request — and deletes
the record from the engine's resulting store. -/
theorem c4_schedule_and_sweep (proc : AssistanceProcessModel) (operationKey : String)
    (ctx : AssistanceContext) (d : Int) (aId : Option String) (cfg : Config)
    (now : Int) (s : Store) (reg : List AssistanceProcessModel)
    (supported : List String) (fuel : Nat) (rec : ScheduledOperationDoc)
    (r : Option AssistanceResult) (s1 : Store) :
    (isOperationRegistered proc operationKey = true →
     ctx.contextCanBePersisted = true →
     (scheduleOperation proc operationKey ctx d aId cfg now s).1 = .ok () ∧
     (scheduleOperation proc operationKey ctx d aId cfg now s).2.scheduledOperations =
       s.scheduledOperations ++
         [{ opId := s.nextScheduledNum, assistanceTypeKey := some proc.key,
            assistanceOperationKey := some operationKey, aId := aId,
            ctxParameterDict := ctx.parameterDict,
            timeOfInvocation := now + d *
              (if cfg.debugMode then cfg.debugScheduledAssistanceTimeFactor.getD 1
               else 1) }]) ∧
    (s.scheduledOperations = [rec] →
     rec.timeOfInvocation ≤ now →
     (cfg.debugMode && cfg.scheduledAssistanceDisabled.getD false) = false →
     handleAssistanceRequest reg supported cfg now fuel
       (requestOfScheduledOperation rec) s = (.ok r, s1) →
     checkScheduledAssistanceOperations reg supported cfg fuel now s =
       ([requestOfScheduledOperation rec], deleteAssistanceOperation rec s1) ∧
     (s1.scheduledOperations = [rec] →
       (deleteAssistanceOperation rec s1).scheduledOperations = [])) := by
  constructor
  · intro hreg hpersist
    have hfac : (match cfg.debugScheduledAssistanceTimeFactor with
        | some f => f
        | none => (1 : Int)) = cfg.debugScheduledAssistanceTimeFactor.getD 1 := by
      cases cfg.debugScheduledAssistanceTimeFactor <;> rfl
    constructor
    · simp [scheduleOperation, hreg, hpersist]
    · simp [scheduleOperation, createAssistanceOperationForScheduledInvocation,
        hreg, hpersist, hfac]
  · intro hs hdue hdis hhandle
    unfold checkScheduledAssistanceOperations
    rw [hdis]
    simp only [ite_false_bool]
    unfold readAssistanceOperationByTimeOfInvocationBeforeDate
    rw [hs]
    have hfilter : List.filter (fun dd => decide (dd.timeOfInvocation ≤ now)) [rec] = [rec] := by
      simp [List.filter, hdue]
    rw [hfilter]
    unfold sweepScheduledOperationsLoop
    dsimp only
    rw [hhandle]
    dsimp only
    unfold sweepScheduledOperationsLoop
    exact ⟨rfl, fun h1 => by
      simp [deleteAssistanceOperation, deleteFirstScheduledById, h1]⟩

/-- C4 witness: the theorem at concrete inputs — scheduling the greeting
initiation with delay 5 at time 100 writes the one record due at 105, and
a sweep at time 200 logs exactly that invocation and empties the
scheduled-operation store. -/
theorem c4_witness :
    ((scheduleOperation greetingProcess assistanceOperationKeyInitiation {} 5
        (some "a-0") {} 100 {}).1 = .ok () ∧
     (scheduleOperation greetingProcess assistanceOperationKeyInitiation {} 5
        (some "a-0") {} 100 {}).2.scheduledOperations = [c4Rec]) ∧
    (checkScheduledAssistanceOperations [] [] {} 1 200 c4SweepStore =
       ([requestOfScheduledOperation c4Rec],
        deleteAssistanceOperation c4Rec c4SweepStore) ∧
     (deleteAssistanceOperation c4Rec c4SweepStore).scheduledOperations = []) :=
  ⟨(c4_schedule_and_sweep greetingProcess assistanceOperationKeyInitiation {} 5
      (some "a-0") {} 100 {} [] [] 1 c4Rec none c4SweepStore).1 rfl rfl,
   (fun h =>
     ⟨h.1, h.2 rfl⟩)
     ((c4_schedule_and_sweep greetingProcess assistanceOperationKeyInitiation {} 5
        (some "a-0") {} 200 c4SweepStore [] [] 1 c4Rec none c4SweepStore).2
        rfl (by decide) rfl rfl)⟩

/-- C7: when `__handle_assistance_request` reaches a named process whose
operation yields a result carrying chained requests, the returned
`assistance` sequence is exactly the chained instances followed by the
originating operation's own instances when
`prepend_assistance_from_requests` is set, and the originating instances
followed by the chained ones when it is unset. -/
theorem c7_chaining_order (reg : List AssistanceProcessModel) (supported : List String)
    (cfg : Config) (now : Int) (fuel : Nat) (req : AssistanceRequest) (s : Store)
    (proc : AssistanceProcessModel) (assistanceResult : AssistanceResult)
    (s1 : Store) (chained : List Assistance) (s2 : Store) :
    (cfg.disabledAssistanceTypeKeys.contains req.assistanceTypeKey ||
      !supported.contains req.assistanceTypeKey) = false →
    reg.find? (fun p => p.key == req.assistanceTypeKey) = some proc →
    checkApplicabilityAndExecuteOperation proc req.assistanceOperationKey req.ctx cfg
      now s = (.ok (some assistanceResult), s1) →
    assistanceResult.assistanceRequests.isEmpty = false →
    resolveAssistanceRequests (handleAssistanceRequest reg supported cfg now fuel)
      assistanceResult.assistanceRequests s1 = (.ok chained, s2) →
    handleAssistanceRequest reg supported cfg now (fuel + 1) req s =
      (.ok (some { assistance :=
        if assistanceResult.prependAssistanceFromRequests then
          chained ++ assistanceResult.assistance
        else assistanceResult.assistance ++ chained }), s2) := by
  intro hdis hfind hexec hne hres
  unfold handleAssistanceRequest
  rw [hdis]
  simp only [ite_false_bool]
  rw [hfind]
  dsimp only
  rw [hexec]
  dsimp only
  rw [hne]
  simp only [ite_false_bool]
  rw [hres]
  dsimp only
  cases hpp : assistanceResult.prependAssistanceFromRequests <;> simp [hpp]

/-- C7 witness: the theorem at concrete inputs — a parent operation with
the prepend flag set and one chained request yields the chained instance
`a-1` before its own instance `a-0`. -/
theorem c7_witness :
    handleAssistanceRequest c7Reg ["c7_process"] {} 0 2 c7Req {} =
      (.ok (some { assistance := [c7ChildPersisted, c7ParentPersisted] }), c7Store2) :=
  c7_chaining_order c7Reg ["c7_process"] {} 0 1 c7Req {} c7Proc c7ParentResult
    c7Store1 [c7ChildPersisted] c7Store2 rfl rfl rfl rfl rfl

/-- C8: a "logged in" event for a user with at most one prior experience
makes the greeting initiation produce a new IN_PROGRESS instance carrying
one greeting-message object, with exactly one SCHEDULED follow-up (the
toolcheck screencast hint) due 5 seconds later; for a user with more than
one prior experience it produces a new COMPLETED instance carrying one
welcome-back message and writes no scheduled follow-up. -/
theorem c8_greeting_scenarios (es : List Experience) :
    (es.length ≤ 1 →
      checkApplicabilityAndExecuteOperation greetingProcess assistanceOperationKeyInitiation
        c8Ctx {} 0 (c8Store es) =
      (.ok (some { assistance := [c8Persisted .inProgress
        (t localeIdentifierDe "assistance.greeting.operation.greeting")] }),
       c8StoreAfterA es)) ∧
    (1 < es.length →
      checkApplicabilityAndExecuteOperation greetingProcess assistanceOperationKeyInitiation
        c8Ctx {} 0 (c8Store es) =
      (.ok (some { assistance := [c8Persisted .completed
        (t localeIdentifierDe "assistance.greeting.operation.welcome_back")] }),
       c8StoreAfterB es)) ∧
    c8SchedRec.timeOfInvocation = 0 + 5 ∧
    c8SchedRec.assistanceOperationKey = some toolcheckScreencastHintOperationKey ∧
    (c8StoreAfterA es).scheduledOperations = [c8SchedRec] ∧
    (c8StoreAfterB es).scheduledOperations = [] ∧
    (c8Persisted .inProgress
      (t localeIdentifierDe "assistance.greeting.operation.greeting")).assistanceObjects =
      [c8MessageObject (t localeIdentifierDe "assistance.greeting.operation.greeting")] := by
  refine ⟨?_, ?_, rfl, rfl, rfl, rfl, rfl⟩
  · intro h
    match es, h with
    | [], _ => rfl
    | [e], _ => with_unfolding_all rfl
  · intro h
    match es, h with
    | e1 :: e2 :: rest, _ => with_unfolding_all rfl

/-- C8 witness: the theorem at concrete inputs — a user with no prior
experience gets the IN_PROGRESS greeting with the scheduled hint, a user
with two prior experiences gets the COMPLETED welcome-back with no
scheduled follow-up. -/
theorem c8_witness :
    (checkApplicabilityAndExecuteOperation greetingProcess assistanceOperationKeyInitiation
        c8Ctx {} 0 (c8Store []) =
      (.ok (some { assistance := [c8Persisted .inProgress
        (t localeIdentifierDe "assistance.greeting.operation.greeting")] }),
       c8StoreAfterA [])) ∧
    (checkApplicabilityAndExecuteOperation greetingProcess assistanceOperationKeyInitiation
        c8Ctx {} 0 (c8Store [{ eId := "e1" }, { eId := "e2" }]) =
      (.ok (some { assistance := [c8Persisted .completed
        (t localeIdentifierDe "assistance.greeting.operation.welcome_back")] }),
       c8StoreAfterB [{ eId := "e1" }, { eId := "e2" }])) :=
  ⟨(c8_greeting_scenarios []).1 (by decide),
   (c8_greeting_scenarios [{ eId := "e1" }, { eId := "e2" }]).2.1 (by decide)⟩

/-- Mapping a function of the element over an enumeration forgets the
indices. -/
theorem enum_map_of_snd {α β : Type} (f : α → β) (l : List α) :
    l.enum.map (fun p => f p.2) = l.map f := by
  rw [show (fun (p : Nat × α) => f p.2) = f ∘ Prod.snd from rfl,
    ← List.map_map, List.enum_map_snd]

/-- What `operationToRegisterFor` guarantees about a successfully computed
operation: every step but the very first is marked as requiring an
in-progress owner, and every step but the last has the follow-up for the
successor step appended to its subsequent operations. -/
theorem operationToRegisterFor_spec (phases : List AssistancePhaseSpec)
    (ph : AssistancePhaseSpec) (pi si : Nat) (step : AssistancePhaseStepSpec)
    (op' : OperationState)
    (h : operationToRegisterFor phases ph pi si step = .ok op') :
    ((pi ≠ 0 ∨ si ≠ 0) → op'.assistanceInProgressRequired = true) ∧
    (¬(pi = phases.length - 1 ∧ si = ph.steps.length - 1) →
      ∃ nextStep, nextStepOf phases ph pi si = some nextStep ∧
        ∃ tail, op'.subsequentOperations =
          some (tail ++ [subsequentOperationForNextStep nextStep])) := by
  unfold operationToRegisterFor at h
  dsimp only at h
  split at h
  next hlast =>
    injection h with h1
    constructor
    · intro hne
      have hb : (pi != 0 || si != 0) = true := by
        rcases hne with h2 | h2 <;> simp [h2]
      rw [hb] at h1
      simp only [if_true] at h1
      subst h1
      rfl
    · intro hnlast
      simp only [Bool.and_eq_true, beq_iff_eq] at hlast
      exact absurd ⟨hlast.1, hlast.2⟩ hnlast
  next hlast =>
    split at h
    next hnext => simp at h
    next nextStep hnext =>
      injection h with h1
      constructor
      · intro hne
        have hb : (pi != 0 || si != 0) = true := by
          rcases hne with h2 | h2 <;> simp [h2]
        subst h1
        rw [hb]
        rfl
      · intro _
        subst h1
        exact ⟨nextStep, hnext, _, rfl⟩

/-- Invariants of the inner step loop of `_register_phases` on success:
registered entries persist, the key list grows by exactly the step keys
in order, key distinctness is preserved, and every processed step is
registered with the operation computed by `operationToRegisterFor`. -/
theorem registerPhaseStepsLoop_spec (phases : List AssistancePhaseSpec)
    (phase : AssistancePhaseSpec) (phaseIndex : Nat) :
    ∀ (pairs : List (Nat × AssistancePhaseStepSpec)) (stepNumber : Nat)
      (acc acc' : RegistrationState) (sn' : Nat),
    registerPhaseStepsLoop phases phase phaseIndex pairs stepNumber acc = .ok (acc', sn') →
    (∀ kv, kv ∈ acc.operationsToRegister → kv ∈ acc'.operationsToRegister) ∧
    acc'.operationsToRegister.map Prod.fst =
      acc.operationsToRegister.map Prod.fst ++ pairs.map (fun p => p.2.operationKey) ∧
    ((acc.operationsToRegister.map Prod.fst).Nodup →
      (acc'.operationsToRegister.map Prod.fst).Nodup) ∧
    (∀ (si : Nat) (step : AssistancePhaseStepSpec), (si, step) ∈ pairs →
      ∃ op', operationToRegisterFor phases phase phaseIndex si step = .ok op' ∧
        (step.operationKey, op') ∈ acc'.operationsToRegister) := by
  intro pairs
  induction pairs with
  | nil =>
    intro stepNumber acc acc' sn' h
    unfold registerPhaseStepsLoop at h
    injection h with h1
    injection h1 with ha hsn
    subst ha
    exact ⟨fun kv hkv => hkv, by simp, fun hnd => hnd, by simp⟩
  | cons head rest ih =>
    obtain ⟨si, step⟩ := head
    intro stepNumber acc acc' sn' h
    unfold registerPhaseStepsLoop at h
    dsimp only at h
    split at h
    next hdup => simp at h
    next hdup =>
      split at h
      next e heq => simp at h
      next op' heq =>
        obtain ⟨mono, keysEq, ndPres, memAll⟩ := ih (stepNumber + 1) _ acc' sn' h
        refine ⟨?_, ?_, ?_, ?_⟩
        · intro kv hkv
          exact mono kv (List.mem_append_left _ hkv)
        · rw [keysEq]
          simp [List.append_assoc]
        · intro hnd
          apply ndPres
          have hnotin : step.operationKey ∉ acc.operationsToRegister.map Prod.fst := by
            intro hmem
            obtain ⟨pair, hpair, hfst⟩ := List.mem_map.mp hmem
            have hno := List.find?_eq_none.mp (Option.not_isSome_iff_eq_none.mp hdup)
              pair hpair
            simp [hfst] at hno
          simp [List.nodup_append, hnd, hnotin]
        · intro si' step' hmem
          rcases List.mem_cons.mp hmem with heq2 | hrest
          · injection heq2 with h1 h2
            subst h1
            subst h2
            exact ⟨op', heq,
              mono _ (List.mem_append_right _ (List.mem_singleton_self _))⟩
          · exact memAll si' step' hrest

/-- Invariants of the outer phase loop of `_register_phases` on success. -/
theorem registerPhasesLoop_spec (phases : List AssistancePhaseSpec) :
    ∀ (phasePairs : List (Nat × AssistancePhaseSpec)) (stepNumber : Nat)
      (acc acc' : RegistrationState) (sn' : Nat),
    registerPhasesLoop phases phasePairs stepNumber acc = .ok (acc', sn') →
    (∀ kv, kv ∈ acc.operationsToRegister → kv ∈ acc'.operationsToRegister) ∧
    acc'.operationsToRegister.map Prod.fst =
      acc.operationsToRegister.map Prod.fst ++
        (phasePairs.map (fun pp => pp.2.steps.map (fun st => st.operationKey))).join ∧
    ((acc.operationsToRegister.map Prod.fst).Nodup →
      (acc'.operationsToRegister.map Prod.fst).Nodup) ∧
    (∀ (pi : Nat) (ph : AssistancePhaseSpec), (pi, ph) ∈ phasePairs →
      ∀ (si : Nat) (step : AssistancePhaseStepSpec), (si, step) ∈ ph.steps.enum →
        ∃ op', operationToRegisterFor phases ph pi si step = .ok op' ∧
          (step.operationKey, op') ∈ acc'.operationsToRegister) := by
  intro phasePairs
  induction phasePairs with
  | nil =>
    intro stepNumber acc acc' sn' h
    unfold registerPhasesLoop at h
    injection h with h1
    injection h1 with ha hsn
    subst ha
    exact ⟨fun kv hkv => hkv, by simp, fun hnd => hnd, by simp⟩
  | cons head rest ih =>
    obtain ⟨pi, ph⟩ := head
    intro stepNumber acc acc' sn' h
    unfold registerPhasesLoop at h
    split at h
    next e heq => simp at h
    next accStep heq =>
      obtain ⟨mono1, keys1, nd1, mem1⟩ :=
        registerPhaseStepsLoop_spec phases ph pi ph.steps.enum stepNumber acc
          accStep.1 accStep.2 heq
      obtain ⟨mono2, keys2, nd2, mem2⟩ := ih accStep.2 accStep.1 acc' sn' h
      refine ⟨fun kv hkv => mono2 kv (mono1 kv hkv), ?_, fun hnd => nd2 (nd1 hnd), ?_⟩
      · rw [keys2, keys1, enum_map_of_snd (fun st => st.operationKey) ph.steps]
        simp [List.append_assoc]
      · intro pi' ph' hmem si step hstep
        rcases List.mem_cons.mp hmem with heq2 | hrest
        · injection heq2 with h1 h2
          subst h1
          subst h2
          obtain ⟨op', hop, hmem2⟩ := mem1 si step hstep
          exact ⟨op', hop, mono2 _ hmem2⟩
        · exact mem2 pi' ph' hrest si step hstep

/-- What `_register_phases` guarantees on success: the registered keys
are exactly all step keys in order and are pairwise distinct, and every
step is registered with the operation computed by
`operationToRegisterFor`. -/
theorem registerPhases_ok_spec (phases : List AssistancePhaseSpec)
    (acc : RegistrationState) (h : registerPhases phases = .ok acc) :
    acc.operationsToRegister.map Prod.fst =
      (phases.map (fun ph => ph.steps.map (fun st => st.operationKey))).join ∧
    (acc.operationsToRegister.map Prod.fst).Nodup ∧
    (∀ (pi : Nat) (ph : AssistancePhaseSpec), (pi, ph) ∈ phases.enum →
      ∀ (si : Nat) (step : AssistancePhaseStepSpec), (si, step) ∈ ph.steps.enum →
        ∃ op', operationToRegisterFor phases ph pi si step = .ok op' ∧
          (step.operationKey, op') ∈ acc.operationsToRegister) := by
  unfold registerPhases at h
  split at h
  next e heq => simp at h
  next accStep heq =>
    injection h with h1
    subst h1
    obtain ⟨mono, keysEq, ndPres, memAll⟩ :=
      registerPhasesLoop_spec phases phases.enum 0 {} accStep.1 accStep.2 heq
    refine ⟨?_, ?_, memAll⟩
    · rw [keysEq,
        enum_map_of_snd (fun ph => ph.steps.map (fun st => st.operationKey)) phases]
      rfl
    · apply ndPres
      simp

/-- C5: on successful phase registration, every step's registered
operation is the one computed by `operationToRegisterFor`: marked
`assistance_in_progress_required` unless it is the very first step
(phase 1, step 1), and — unless it is the last step of the last phase —
carrying an appended follow-up for the successor step, TRIGGERED when
that successor declares no schedule and SCHEDULED with its declared delay
otherwise; a phase list with a duplicate operation key makes registration
raise an error instead of producing a registry. -/
theorem c5_phase_registration (phases : List AssistancePhaseSpec)
    (acc : RegistrationState) :
    (registerPhases phases = .ok acc →
      ∀ (pi : Nat) (ph : AssistancePhaseSpec), (pi, ph) ∈ phases.enum →
        ∀ (si : Nat) (step : AssistancePhaseStepSpec), (si, step) ∈ ph.steps.enum →
          ∃ op', operationToRegisterFor phases ph pi si step = .ok op' ∧
            (step.operationKey, op') ∈ acc.operationsToRegister ∧
            ((pi ≠ 0 ∨ si ≠ 0) → op'.assistanceInProgressRequired = true) ∧
            (¬(pi = phases.length - 1 ∧ si = ph.steps.length - 1) →
              ∃ nextStep, nextStepOf phases ph pi si = some nextStep ∧
                ∃ tail, op'.subsequentOperations =
                  some (tail ++ [subsequentOperationForNextStep nextStep]))) ∧
    (∀ nextStep : AssistancePhaseStepSpec, nextStep.schedule = none →
      subsequentOperationForNextStep nextStep =
        { type := .triggeredOperation, operationKey := nextStep.operationKey }) ∧
    (∀ (nextStep : AssistancePhaseStepSpec) (sch : AssistanceOperationScheduleSpec),
      nextStep.schedule = some sch →
      subsequentOperationForNextStep nextStep =
        { type := .scheduledOperation, operationKey := nextStep.operationKey,
          timeToInvocationInS := some sch.timeToInvocationInS }) ∧
    (¬ (phases.map (fun ph => ph.steps.map (fun st => st.operationKey))).join.Nodup →
      ∃ e, registerPhases phases = .error e) := by
  refine ⟨?_, ?_, ?_, ?_⟩
  · intro h pi ph hph si step hstep
    obtain ⟨_, _, memAll⟩ := registerPhases_ok_spec phases acc h
    obtain ⟨op', hop, hmem⟩ := memAll pi ph hph si step hstep
    obtain ⟨hmark, hfollow⟩ := operationToRegisterFor_spec phases ph pi si step op' hop
    exact ⟨op', hop, hmem, hmark, hfollow⟩
  · intro nextStep hsch
    unfold subsequentOperationForNextStep
    rw [hsch]
  · intro nextStep sch hsch
    unfold subsequentOperationForNextStep
    rw [hsch]
  · intro hdup
    cases hreg : registerPhases phases with
    | error e => exact ⟨e, rfl⟩
    | ok acc2 =>
      obtain ⟨hkeys, hnd, _⟩ := registerPhases_ok_spec phases acc2 hreg
      rw [hkeys] at hnd
      exact absurd hnd hdup

/-- C5 witness: the theorem at concrete inputs — registering the
two-phase list `c5Phases` registers step `s2` (phase 1, step 2) marked as
requiring an in-progress owner with a follow-up for `s3` appended; the
follow-up for the schedule-free `s3` is TRIGGERED while the one for the
scheduled `s2` is SCHEDULED with delay 7; and the duplicate-key list
fails with an error. -/
theorem c5_witness :
    (∃ op', operationToRegisterFor c5Phases { steps := [c5Step1, c5Step2] } 0 1 c5Step2 =
        .ok op' ∧
      (c5Step2.operationKey, op') ∈ c5Acc.operationsToRegister ∧
      ((0 ≠ 0 ∨ 1 ≠ 0) → op'.assistanceInProgressRequired = true) ∧
      (¬(0 = c5Phases.length - 1 ∧ 1 = (List.length [c5Step1, c5Step2]) - 1) →
        ∃ nextStep, nextStepOf c5Phases { steps := [c5Step1, c5Step2] } 0 1 =
            some nextStep ∧
          ∃ tail, op'.subsequentOperations =
            some (tail ++ [subsequentOperationForNextStep nextStep]))) ∧
    subsequentOperationForNextStep c5Step3 =
      { type := .triggeredOperation, operationKey := c5Step3.operationKey } ∧
    subsequentOperationForNextStep c5Step2 =
      { type := .scheduledOperation, operationKey := c5Step2.operationKey,
        timeToInvocationInS := some 7 } ∧
    ∃ e, registerPhases c5DupPhases = .error e :=
  ⟨(c5_phase_registration c5Phases c5Acc).1 rfl 0 { steps := [c5Step1, c5Step2] }
      (by decide) 1 c5Step2 (by decide),
   (c5_phase_registration c5Phases c5Acc).2.1 c5Step3 rfl,
   (c5_phase_registration c5Phases c5Acc).2.2.1 c5Step2 { timeToInvocationInS := 7 } rfl,
   (c5_phase_registration c5DupPhases {}).2.2.2 (by decide)⟩

end TudAssistanceBackbone
